import Mathlib

/-!
Disinfection unit controller (ESP32 touch display firmware).

A shallow embedding of the program controller of
`src/platformio_project/src/main.cpp`: the global `systemState`, the
operations `startProgram`, `stopProgram`, `onProgramTimer`, `checkTankLevel`
and the derived queries `getRemainingTime` and `getProgressPercent`; the REST
endpoints registered by `setupRestApi` together with the request handling of
`rest_api.h`; the MQTT command callback `onMqttCommand`; the program table of
`src/programs.h` with its millisecond helpers; the `ProgramManager` catalog
of the platformio `programs.h`; and the time formatting functions.

Machine integers: `uint32_t` values are natural numbers below `2^32`; every
`uint32_t` operation that can leave that range is reduced modulo `2^32`
explicitly. `int` values are integers.
-/

namespace Desinfektion

/-! ## Machine arithmetic -/

/-- Number of values of a `uint32_t`: `2^32`. -/
def UINT32_RANGE : Nat := 4294967296

/-- Truncation of a natural number to `uint32_t`. -/
def toUint32 (n : Nat) : Nat := n % UINT32_RANGE

/-- Subtraction `a - b` of two `uint32_t` values, wrapping modulo `2^32`. -/
def subUint32 (a b : Nat) : Nat :=
  (toUint32 a + (UINT32_RANGE - toUint32 b)) % UINT32_RANGE

/-- Multiplication `a * b` in `uint32_t`, wrapping modulo `2^32`. -/
def mulUint32 (a b : Nat) : Nat := (a * b) % UINT32_RANGE

/-- Conversion of a `uint32_t` value to a 32-bit two's complement `int`. -/
def uint32ToInt (n : Nat) : Int :=
  if toUint32 n < 2147483648 then (toUint32 n : Int)
  else (toUint32 n : Int) - 4294967296

/-! ## Constants of main.cpp -/

/-- Seven days in seconds, `#define PROGRAM_1_DURATION (7 * 24 * 60 * 60)`. -/
def PROGRAM_1_DURATION : Nat := 7 * 24 * 60 * 60

/-- Fourteen days in seconds, `#define PROGRAM_2_DURATION (14 * 24 * 60 * 60)`. -/
def PROGRAM_2_DURATION : Nat := 14 * 24 * 60 * 60

/-- Twenty-one days in seconds, `#define PROGRAM_3_DURATION (21 * 24 * 60 * 60)`. -/
def PROGRAM_3_DURATION : Nat := 21 * 24 * 60 * 60

/-! ## Data model -/

/-- The phase of the controller, `enum ProgramState` of main.cpp. -/
inductive ProgramState where
  | IDLE
  | RUNNING
  | COMPLETED
  | ERROR
  deriving DecidableEq, Repr

/-- The global run record, `struct SystemState` of main.cpp. -/
structure SystemState where
  /-- Current phase. -/
  state : ProgramState
  /-- Selected program, an `int` (1, 2, 3 or 4 for the custom program). -/
  activeProgram : Int
  /-- Program duration in seconds, a `uint32_t`. -/
  programDuration : Nat
  /-- Epoch second at which the program was started, a `uint32_t`. -/
  startTime : Nat
  /-- Days of the custom program, a `uint32_t`. -/
  customDays : Nat
  /-- Last stored tank level reading. -/
  tankLevelOk : Bool
  /-- Whether the motor is running. -/
  motorActive : Bool
  /-- Whether remote control is enabled. -/
  remoteControlEnabled : Bool
  /-- Unique device identifier. -/
  deviceId : String
  deriving DecidableEq, Repr

/-- One call of `publishStatus` or `publishDetailedStatus` on the MQTT status
topic: the status text, the detail fields added to the document, and the
result returned by the broker client. -/
structure StatusMessage where
  /-- Value of the `status` field. -/
  status : String
  /-- Additional key and value pairs. -/
  details : List (String × Int)
  /-- Return value of `mqttClient.publish`. -/
  delivered : Bool
  deriving DecidableEq, Repr

/-- The controller together with the outputs it drives: the motor pin, the
three LED pins, the status label, the error screen and the log of status
messages handed to the MQTT client (oldest first). -/
structure Device where
  /-- The global `systemState`. -/
  sys : SystemState
  /-- Level written to `MOTOR_PIN` (`true` for `HIGH`). -/
  motorPin : Bool
  /-- Level written to `RED_PIN`. -/
  redPin : Bool
  /-- Level written to `GREEN_PIN`. -/
  greenPin : Bool
  /-- Level written to `BLUE_PIN`. -/
  bluePin : Bool
  /-- Text of `statusLabel`. -/
  statusLabel : String
  /-- Whether `lv_scr_load(errorScreen)` has been called. -/
  errorScreenLoaded : Bool
  /-- Status messages handed to the MQTT client. -/
  published : List StatusMessage
  deriving DecidableEq, Repr

/-- What an operation reads from its surroundings while it runs. -/
structure Env where
  /-- Value returned by `rtc.getEpoch()`. -/
  epoch : Nat
  /-- Value returned by `wifiManager.isConnected()`. -/
  wifiConnected : Bool
  /-- Whether `digitalRead(SENSOR_PIN) == HIGH`. -/
  sensorHigh : Bool
  /-- Value returned by `mqttClient.publish`. -/
  publishOk : Bool
  deriving DecidableEq, Repr

/-! ## Sinks -/

/-- Status LED colours per phase, `setLedStatus` of main.cpp. -/
def setLedStatus (state : ProgramState) (d : Device) : Device :=
  match state with
  | .IDLE => { d with redPin := false, greenPin := true, bluePin := false }
  | .RUNNING => { d with redPin := false, greenPin := false, bluePin := true }
  | .COMPLETED => { d with redPin := false, greenPin := true, bluePin := true }
  | .ERROR => { d with redPin := true, greenPin := false, bluePin := false }

/-- The call `mqttClient.publishStatus(status)`; its result is discarded by
every caller in main.cpp. -/
def publishStatus (status : String) (env : Env) (d : Device) : Device :=
  { d with published := d.published ++ [⟨status, [], env.publishOk⟩] }

/-- The call `mqttClient.publishDetailedStatus(status, details)`; its result
is discarded by every caller in main.cpp. -/
def publishDetailedStatus (status : String) (details : List (String × Int))
    (env : Env) (d : Device) : Device :=
  { d with published := d.published ++ [⟨status, details, env.publishOk⟩] }

/-! ## Operations of the controller -/

/-- The duration chosen by the `switch` of `startProgram`; `none` is the
`default: return` branch. -/
def selectDuration (programIndex : Int) (s : SystemState) : Option Nat :=
  if programIndex = 1 then some PROGRAM_1_DURATION
  else if programIndex = 2 then some PROGRAM_2_DURATION
  else if programIndex = 3 then some PROGRAM_3_DURATION
  else if programIndex = 4 then
    some (mulUint32 (mulUint32 (mulUint32 s.customDays 24) 60) 60)
  else none

/-- Start a program, `startProgram(int programIndex)` of main.cpp. -/
def startProgram (programIndex : Int) (env : Env) (d : Device) : Device :=
  match selectDuration programIndex d.sys with
  | none => d
  | some duration =>
    let sys : SystemState :=
      { d.sys with
        programDuration := duration
        activeProgram := programIndex
        state := .RUNNING
        startTime := toUint32 env.epoch
        motorActive := true }
    let d1 : Device := { d with sys := sys, motorPin := true }
    let d2 := setLedStatus .RUNNING d1
    let d3 : Device := { d2 with statusLabel := "Programm läuft" }
    if sys.remoteControlEnabled && env.wifiConnected then
      publishDetailedStatus "program_started"
        [("program", programIndex), ("duration", (duration : Int))] env d3
    else d3

/-- Stop the program, `stopProgram()` of main.cpp. -/
def stopProgram (env : Env) (d : Device) : Device :=
  let sys : SystemState := { d.sys with state := .IDLE, motorActive := false }
  let d1 : Device := { d with sys := sys, motorPin := false }
  let d2 := setLedStatus .IDLE d1
  let d3 : Device := { d2 with statusLabel := "Bereit für Desinfektion" }
  if sys.remoteControlEnabled && env.wifiConnected then
    publishStatus "program_stopped" env d3
  else d3

/-- The local `elapsedTime = rtc.getEpoch() - systemState.startTime` computed
by `onProgramTimer`, `getRemainingTime` and `getProgressPercent`. -/
def elapsedTime (now : Nat) (s : SystemState) : Nat :=
  subUint32 now s.startTime

/-- The periodic tick, `onProgramTimer()` of main.cpp. -/
def onProgramTimer (env : Env) (d : Device) : Device :=
  if d.sys.state = .RUNNING then
    if d.sys.programDuration > 0 ∧ elapsedTime env.epoch d.sys ≥ d.sys.programDuration then
      let sys : SystemState := { d.sys with state := .COMPLETED, motorActive := false }
      let d1 : Device := { d with sys := sys, motorPin := false }
      setLedStatus .COMPLETED d1
    else d
  else d

/-- Remaining time of the program in seconds, `getRemainingTime()` of
main.cpp, at clock reading `now`. -/
def getRemainingTime (now : Nat) (s : SystemState) : Nat :=
  if s.state ≠ .RUNNING then 0
  else if elapsedTime now s ≥ s.programDuration then 0
  else subUint32 s.programDuration (elapsedTime now s)

/-- Progress in percent, `getProgressPercent()` of main.cpp, at clock reading
`now`. The product `elapsedTime * 100` is a `uint32_t` and the quotient is
converted to `int` on return. -/
def getProgressPercent (now : Nat) (s : SystemState) : Int :=
  if s.state ≠ .RUNNING then 0
  else if elapsedTime now s ≥ s.programDuration then 100
  else uint32ToInt (mulUint32 (elapsedTime now s) 100 / s.programDuration)

/-- Sample the tank level, `checkTankLevel()` of main.cpp. -/
def checkTankLevel (env : Env) (d : Device) : Device :=
  let currentLevel := env.sensorHigh
  if currentLevel ≠ d.sys.tankLevelOk then
    let sys1 : SystemState := { d.sys with tankLevelOk := currentLevel }
    if !sys1.tankLevelOk && sys1.state = .RUNNING then
      let sys2 : SystemState := { sys1 with state := .ERROR, motorActive := false }
      let d1 : Device := { d with sys := sys2, motorPin := false }
      let d2 := setLedStatus .ERROR d1
      let d3 : Device := { d2 with errorScreenLoaded := true }
      if sys2.remoteControlEnabled && env.wifiConnected then
        publishStatus "error_tank_empty" env d3
      else d3
    else { d with sys := sys1 }
  else d

/-- Well-formed run record: the three `uint32_t` fields are below `2^32`. -/
def SystemState.WellFormed (s : SystemState) : Prop :=
  s.programDuration < UINT32_RANGE ∧ s.startTime < UINT32_RANGE ∧ s.customDays < UINT32_RANGE

instance (s : SystemState) : Decidable s.WellFormed := by
  unfold SystemState.WellFormed; infer_instance

/-! ## Sample values -/

/-- A run record as left by `setup()`: idle, program 2 preselected, seven
custom days. -/
def bootState : SystemState :=
  { state := .IDLE
    activeProgram := 2
    programDuration := PROGRAM_2_DURATION
    startTime := 0
    customDays := 7
    tankLevelOk := true
    motorActive := false
    remoteControlEnabled := true
    deviceId := "desinfektion_0" }

/-- The device after `setup()`: green LED on, motor off, nothing published. -/
def bootDevice : Device :=
  { sys := bootState
    motorPin := false
    redPin := false
    greenPin := true
    bluePin := false
    statusLabel := "Bereit für Desinfektion"
    errorScreenLoaded := false
    published := [] }

/-- An environment with the clock at `now`, WiFi connected, the sensor high
and the broker reachable. -/
def envAt (now : Nat) : Env :=
  { epoch := now, wifiConnected := true, sensorHigh := true, publishOk := true }

/-- An environment with the clock at `now` and the tank sensor reading low. -/
def envLowAt (now : Nat) : Env :=
  { epoch := now, wifiConnected := true, sensorHigh := false, publishOk := true }

/-- The boot device with the custom program set to `days` days. -/
def deviceWithCustomDays (days : Nat) : Device :=
  { bootDevice with sys := { bootState with customDays := days } }

/-- Program 1 started from the boot device at the last second before the
32-bit epoch counter wraps. -/
def wrappedRun : SystemState :=
  (startProgram 1 (envAt 4294967295) bootDevice).sys

/-- Apply `onProgramTimer` once per environment of the list, in order. -/
def tickAll (envs : List Env) (d : Device) : Device :=
  envs.foldl (fun acc env => onProgramTimer env acc) d

/-! ## Request and response documents -/

/-- A parsed JSON document as a handler reads it: every key of the document
with the value `as<int>()` returns for it. -/
abbrev JsonDocument := List (String × Int)

/-- The test `doc.containsKey(key)`. -/
def JsonDocument.containsKey (doc : JsonDocument) (key : String) : Bool :=
  (doc.lookup key).isSome

/-- The read `doc[key].as<int>()`; a missing key reads as `0`. -/
def JsonDocument.asInt (doc : JsonDocument) (key : String) : Int :=
  (doc.lookup key).getD 0

/-- A value stored in a response document. -/
inductive JsonValue where
  | int (v : Int)
  | bool (b : Bool)
  | str (s : String)
  deriving DecidableEq, Repr

/-- The answer handed to `server.send`: the HTTP code and the fields of the
JSON body. -/
structure HttpResponse where
  /-- HTTP status code. -/
  code : Nat
  /-- Fields of the JSON body, in insertion order. -/
  body : List (String × JsonValue)
  deriving DecidableEq, Repr

/-- The value of a field of the response body. -/
def HttpResponse.field (r : HttpResponse) (key : String) : Option JsonValue :=
  r.body.lookup key

/-- The cast `(int)systemState.state` of the enumeration. -/
def stateCode (state : ProgramState) : Int :=
  match state with
  | .IDLE => 0
  | .RUNNING => 1
  | .COMPLETED => 2
  | .ERROR => 3

/-- Conversion of an `int` to `uint32_t`. -/
def intToUint32 (v : Int) : Nat := (v % 4294967296).toNat

/-! ## REST endpoints registered by `setupRestApi` -/

/-- Handler of `GET /api/status`. -/
def handleStatus (env : Env) (d : Device) : HttpResponse :=
  { code := 200
    body :=
      [("state", .int (stateCode d.sys.state)),
       ("program", .int d.sys.activeProgram),
       ("remaining_time", .int (getRemainingTime env.epoch d.sys : Nat)),
       ("progress", .int (getProgressPercent env.epoch d.sys)),
       ("tank_level_ok", .bool d.sys.tankLevelOk),
       ("device_id", .str d.sys.deviceId)] }

/-- Handler of `POST /api/program/start`. -/
def handleProgramStart (doc : JsonDocument) (env : Env) (d : Device) :
    Device × HttpResponse :=
  if doc.containsKey "program" then
    let programIndex := doc.asInt "program"
    if programIndex ≥ 1 ∧ programIndex ≤ 4 then
      (startProgram programIndex env d,
        { code := 200, body := [("success", .bool true), ("program", .int programIndex)] })
    else
      (d, { code := 400, body := [("error", .str "Ungültiger Programmindex")] })
  else
    (d, { code := 400, body := [("error", .str "Programmindex fehlt")] })

/-- Handler of `POST /api/program/stop`. -/
def handleProgramStop (env : Env) (d : Device) : Device × HttpResponse :=
  (stopProgram env d, { code := 200, body := [("success", .bool true)] })

/-- Handler of `POST /api/program/custom_days`. -/
def handleCustomDays (doc : JsonDocument) (d : Device) : Device × HttpResponse :=
  if doc.containsKey "days" then
    let days := doc.asInt "days"
    if days ≥ 1 ∧ days ≤ 99 then
      ({ d with sys := { d.sys with customDays := intToUint32 days } },
        { code := 200, body := [("success", .bool true), ("days", .int days)] })
    else
      (d, { code := 400, body := [("error", .str "Ungültige Anzahl an Tagen")] })
  else
    (d, { code := 400, body := [("error", .str "Tagesanzahl fehlt")] })

/-! ## Request handling of rest_api.h -/

/-- The request method reported by `server.method()`. -/
inductive HttpMethod where
  | GET
  | POST
  | PUT
  | DELETE
  deriving DecidableEq, Repr

/-- What `RESTAPI::handleJsonRequest` reads of a request: its method and its
content. The content is `none` when `server.hasArg("plain")` is false;
otherwise it holds the outcome of `deserializeJson`, `none` for content that
does not parse and the document for content that does. -/
structure HttpRequest where
  /-- The request method. -/
  method : HttpMethod
  /-- The content of the request. -/
  content : Option (Option JsonDocument)
  deriving DecidableEq, Repr

/-- The answer of `sendErrorResponse(server, code, message)`. -/
def sendErrorResponse (code : Nat) (message : String) : HttpResponse :=
  { code := code, body := [("error", .bool true), ("message", .str message)] }

/-- The method `RESTAPI::handleJsonRequest`: the parsed document when the
handler is to be called, or the error answer already sent. A request without
content is let through only for `GET`, with an empty document. The text of
the parse error appended to the message is left out. -/
def handleJsonRequest (req : HttpRequest) : Except HttpResponse JsonDocument :=
  match req.content with
  | none =>
    if req.method = .GET then .ok []
    else .error (sendErrorResponse 400 "No content provided")
  | some none => .error (sendErrorResponse 400 "JSON parsing failed")
  | some (some doc) => .ok doc

/-- The callback `RESTAPI::begin` installs for a registered endpoint: the
handler runs only if `handleJsonRequest` lets the request through. -/
def serveEndpoint (handler : JsonDocument → Device → Device × HttpResponse)
    (req : HttpRequest) (d : Device) : Device × HttpResponse :=
  match handleJsonRequest req with
  | .ok doc => handler doc d
  | .error response => (d, response)

/-- A request to `/api/status`. -/
def serveStatus (req : HttpRequest) (env : Env) (d : Device) : Device × HttpResponse :=
  serveEndpoint (fun _ dev => (dev, handleStatus env dev)) req d

/-- A request to `/api/program/start`. -/
def serveProgramStart (req : HttpRequest) (env : Env) (d : Device) :
    Device × HttpResponse :=
  serveEndpoint (fun doc dev => handleProgramStart doc env dev) req d

/-- A request to `/api/program/stop`. -/
def serveProgramStop (req : HttpRequest) (env : Env) (d : Device) :
    Device × HttpResponse :=
  serveEndpoint (fun _ dev => handleProgramStop env dev) req d

/-- A request to `/api/program/custom_days`. -/
def serveCustomDays (req : HttpRequest) (d : Device) : Device × HttpResponse :=
  serveEndpoint (fun doc dev => handleCustomDays doc dev) req d

/-- A `GET` request without content. -/
def getRequest : HttpRequest := { method := .GET, content := none }

/-- A `POST` request without content. -/
def emptyPostRequest : HttpRequest := { method := .POST, content := none }

/-- A `POST` request whose content parses to `doc`. -/
def postRequest (doc : JsonDocument) : HttpRequest :=
  { method := .POST, content := some (some doc) }

/-! ## Remote commands -/

/-- The MQTT command callback `onMqttCommand(command, payload)` of main.cpp.
In the `status_update` document the boolean `tank_level_ok` is recorded as
`1` or `0`. -/
def onMqttCommand (command : String) (payload : JsonDocument) (env : Env)
    (d : Device) : Device :=
  if command = "start_program" then
    if payload.containsKey "program" then
      let programIndex := payload.asInt "program"
      let d1 := startProgram programIndex env d
      publishStatus "program_started" env d1
    else d
  else if command = "stop_program" then
    let d1 := stopProgram env d
    publishStatus "program_stopped" env d1
  else if command = "get_status" then
    publishDetailedStatus "status_update"
      [("state", stateCode d.sys.state),
       ("program", d.sys.activeProgram),
       ("remaining_time", (getRemainingTime env.epoch d.sys : Nat)),
       ("progress", getProgressPercent env.epoch d.sys),
       ("tank_level_ok", if d.sys.tankLevelOk then 1 else 0)] env d
  else d

/-! ## Sequences of operations -/

/-- The operations that act on the run record. -/
inductive Operation where
  /-- The call `startProgram(programIndex)`. -/
  | startProgram (programIndex : Int)
  /-- The call `stopProgram()`. -/
  | stopProgram
  /-- One tick of `onProgramTimer()`. -/
  | onProgramTimer
  /-- One sample of `checkTankLevel()`. -/
  | checkTankLevel
  /-- One request to the custom-days endpoint with the given body. -/
  | customDays (doc : JsonDocument)
  deriving DecidableEq, Repr

/-- Run one operation in the given environment. -/
def applyOperation (op : Operation) (env : Env) (d : Device) : Device :=
  match op with
  | .startProgram programIndex => startProgram programIndex env d
  | .stopProgram => stopProgram env d
  | .onProgramTimer => onProgramTimer env d
  | .checkTankLevel => checkTankLevel env d
  | .customDays doc => (handleCustomDays doc d).1

/-- Run a sequence of operations, each in its own environment, in order. -/
def runOperations (trace : List (Operation × Env)) (d : Device) : Device :=
  trace.foldl (fun acc step => applyOperation step.1 step.2 acc) d

/-- The device after `setup()` on a unit whose identifier is `deviceId`. -/
def bootDeviceOf (deviceId : String) : Device :=
  { bootDevice with sys := { bootState with deviceId := deviceId } }

/-! ## Derived queries as the specification words them -/

/-- The specified `elapsed()`: `now - startTimestamp` in the phases Running,
Completed and Faulted, else `0`. The difference is the 32-bit difference the
controller computes. -/
def specElapsed (now : Nat) (s : SystemState) : Int :=
  if s.state = .RUNNING ∨ s.state = .COMPLETED ∨ s.state = .ERROR then
    (elapsedTime now s : Int)
  else 0

/-- The specified `remaining()`: `max(0, duration - elapsed())` if the
duration is positive, else `0`. -/
def specRemaining (now : Nat) (s : SystemState) : Int :=
  if 0 < s.programDuration then max 0 ((s.programDuration : Int) - specElapsed now s)
  else 0

/-- The specified `progressPercent()`: `clamp(elapsed()*100/duration, 0, 100)`
if the duration is positive, else `0`, in unbounded integers. -/
def specProgressPercent (now : Nat) (s : SystemState) : Int :=
  if 0 < s.programDuration then
    max 0 (min 100 (specElapsed now s * 100 / (s.programDuration : Int)))
  else 0

/-! ## Program table of src/programs.h -/

/-- Program configuration, `struct ProgramConfig` of src/programs.h. -/
structure ProgramConfig where
  /-- Program name. -/
  name : String
  /-- Duration in milliseconds, an `unsigned long`. -/
  durationMs : Nat
  /-- Motor power in percent. -/
  motorPower : Int
  /-- Whether the sensor is used for this program. -/
  useSensor : Bool
  deriving DecidableEq, Repr

/-- Seven days, sensor used. -/
def PROGRAM_1 : ProgramConfig :=
  { name := "Programm 1", durationMs := 7 * 24 * 60 * 60 * 1000, motorPower := 100,
    useSensor := true }

/-- Fourteen days, sensor used. -/
def PROGRAM_2 : ProgramConfig :=
  { name := "Programm 2", durationMs := 14 * 24 * 60 * 60 * 1000, motorPower := 100,
    useSensor := true }

/-- Twenty-one days, sensor used. -/
def PROGRAM_3 : ProgramConfig :=
  { name := "Programm 3", durationMs := 21 * 24 * 60 * 60 * 1000, motorPower := 100,
    useSensor := true }

/-- Individually adjustable program; the duration is set later. -/
def PROGRAM_4 : ProgramConfig :=
  { name := "Programm 4", durationMs := 0, motorPower := 100, useSensor := true }

/-- Debug mode of twelve hours at half power; the sensor is ignored. -/
def PROGRAM_DEBUG : ProgramConfig :=
  { name := "Debug Modus", durationMs := 12 * 60 * 60 * 1000, motorPower := 50,
    useSensor := false }

/-- The array of all predefined programs. -/
def PREDEFINED_PROGRAMS : List ProgramConfig :=
  [PROGRAM_1, PROGRAM_2, PROGRAM_3, PROGRAM_4, PROGRAM_DEBUG]

/-- Program 1 started at clock 1000 and completed by the tick at clock
605800. -/
def completedRun : SystemState :=
  (onProgramTimer (envAt 605800) (startProgram 1 (envAt 1000) bootDevice)).sys

/-- Program 2 started at clock 1000 and faulted by a low tank at clock
2000. -/
def faultedRun : SystemState :=
  (checkTankLevel (envLowAt 2000) (startProgram 2 (envAt 1000) bootDevice)).sys

/-! ## Program catalog of the platformio project (programs.h) -/

/-- A disinfection program, `struct Program`. -/
structure Program where
  /-- Program name. -/
  name : String
  /-- Duration in seconds, a `uint32_t`. -/
  duration : Nat
  /-- Motor power in percent, a `uint8_t`. -/
  motorPower : Nat
  /-- Whether the duration can be adjusted. -/
  customizable : Bool
  /-- Program description. -/
  description : String
  deriving DecidableEq, Repr

/-- The state of a `ProgramManager`: the array `programs[4]` and the days of
the custom program. -/
structure ProgramManager where
  /-- The array `programs[4]`. -/
  programs : Fin 4 → Program
  /-- Days of the custom program, a `uint32_t`. -/
  customDays : Nat

/-- The product `customDays * 24 * 60 * 60` in `uint32_t`. -/
def customDaysSeconds (customDays : Nat) : Nat :=
  mulUint32 (mulUint32 (mulUint32 customDays 24) 60) 60

/-- The constructor `ProgramManager()`. -/
def ProgramManager.create : ProgramManager :=
  { customDays := 7
    programs := fun i =>
      match i with
      | 0 => { name := "7-Tage-Programm", duration := 7 * 24 * 60 * 60, motorPower := 100,
               customizable := false,
               description := "Standard-Desinfektion für normale Nutzung" }
      | 1 => { name := "14-Tage-Programm", duration := 14 * 24 * 60 * 60, motorPower := 100,
               customizable := false,
               description := "Erweiterte Desinfektion für mittlere Nutzung" }
      | 2 => { name := "21-Tage-Programm", duration := 21 * 24 * 60 * 60, motorPower := 100,
               customizable := false,
               description := "Intensive Desinfektion für starke Nutzung" }
      | 3 => { name := "Individuelles Programm", duration := customDaysSeconds 7,
               motorPower := 100, customizable := true,
               description := "Benutzerdefinierte Dauer für spezielle Anforderungen" } }

/-- The method `getProgramCount()`. -/
def ProgramManager.getProgramCount (_m : ProgramManager) : Int := 4

/-- The method `getProgram(index)`: the manager after the call (the custom
slot is refreshed when it is the one asked for) and the program the returned
reference denotes. -/
def ProgramManager.getProgram (m : ProgramManager) (index : Int) :
    ProgramManager × Program :=
  if h : index ≥ 0 ∧ index < 4 then
    let m1 : ProgramManager :=
      if index = 3 then
        { m with
          programs := Function.update m.programs 3
            { m.programs 3 with duration := customDaysSeconds m.customDays } }
      else m
    (m1, m1.programs ⟨index.toNat, by omega⟩)
  else
    (m, m.programs 0)

/-- The method `setCustomDays(days)`. -/
def ProgramManager.setCustomDays (m : ProgramManager) (days : Nat) : ProgramManager :=
  { customDays := toUint32 days
    programs := Function.update m.programs 3
      { m.programs 3 with duration := customDaysSeconds (toUint32 days) } }

/-- The method `getCustomDays()`. -/
def ProgramManager.getCustomDays (m : ProgramManager) : Nat := m.customDays

/-! ## Invariant of the controller -/

/-- The motor flag is set exactly in the phase `RUNNING`, the motor pin
carries the motor flag, and the active program is one of `1..4`. -/
def ControllerInvariant (d : Device) : Prop :=
  (d.sys.state = .RUNNING ↔ d.sys.motorActive = true) ∧
  d.motorPin = d.sys.motorActive ∧
  1 ≤ d.sys.activeProgram ∧ d.sys.activeProgram ≤ 4

instance (d : Device) : Decidable (ControllerInvariant d) := by
  unfold ControllerInvariant; infer_instance

/-- The active program is unset: `activeProgram` holds none of the program
numbers 1, 2, 3, 4. -/
def activeProgramUnset (s : SystemState) : Prop :=
  ¬ (1 ≤ s.activeProgram ∧ s.activeProgram ≤ 4)

instance (s : SystemState) : Decidable (activeProgramUnset s) := by
  unfold activeProgramUnset; infer_instance

/-! ## Sequences of catalog calls and of sensor samples -/

/-- A call that can change a `ProgramManager`. -/
inductive ManagerCall where
  /-- The call `setCustomDays(days)`. -/
  | setCustomDays (days : Nat)
  /-- The call `getProgram(index)`. -/
  | getProgram (index : Int)
  deriving DecidableEq, Repr

/-- The manager after one call. -/
def ProgramManager.call (m : ProgramManager) (c : ManagerCall) : ProgramManager :=
  match c with
  | .setCustomDays days => m.setCustomDays days
  | .getProgram index => (m.getProgram index).1

/-- The manager after a sequence of calls, in order. -/
def ProgramManager.runCalls (m : ProgramManager) (calls : List ManagerCall) :
    ProgramManager :=
  calls.foldl ProgramManager.call m

/-- Apply `checkTankLevel` once per environment of the list, in order. -/
def sampleAll (envs : List Env) (d : Device) : Device :=
  envs.foldl (fun acc env => checkTankLevel env acc) d

/-! ## Time formatting -/

/-- Formats a `uint32_t` number of seconds as days, hours and minutes,
`formatTime` of main.cpp; `String(n)` is the decimal numeral of `n`. -/
def formatTime (seconds : Nat) : String :=
  let days := seconds / (24 * 60 * 60)
  let seconds1 := seconds % (24 * 60 * 60)
  let hours := seconds1 / (60 * 60)
  let seconds2 := seconds1 % (60 * 60)
  let minutes := seconds2 / 60
  toString days ++ " Tage " ++ toString hours ++ " Std " ++ toString minutes ++ " Min"

/-- The method `ProgramManager::formatRemainingTime(seconds)` of the
platformio programs.h. -/
def ProgramManager.formatRemainingTime (_m : ProgramManager) (seconds : Nat) : String :=
  let days := seconds / (24 * 60 * 60)
  let seconds1 := seconds % (24 * 60 * 60)
  let hours := seconds1 / (60 * 60)
  let seconds2 := seconds1 % (60 * 60)
  let minutes := seconds2 / 60
  toString days ++ " Tage " ++ toString hours ++ " Std " ++ toString minutes ++ " Min"

/-- The string as the specification words it: `<d> Tage <h> Std <m> Min` with
`d = s / 86400`, `h = (s mod 86400) / 3600` and `m = (s mod 3600) / 60`. -/
def specFormatTime (s : Nat) : String :=
  toString (s / 86400) ++ " Tage " ++ toString (s % 86400 / 3600) ++ " Std "
    ++ toString (s % 3600 / 60) ++ " Min"

/-! ## Millisecond helpers of src/programs.h -/

/-- Remaining time in milliseconds, `getRemainingTime(startTimeMs,
durationMs)` of src/programs.h, with `millis()` returning `millis`. -/
def ProgramsH.getRemainingTime (millis startTimeMs durationMs : Nat) : Nat :=
  if durationMs = 0 then 0
  else
    let currentTimeMs := millis
    let elapsedTimeMs := subUint32 currentTimeMs startTimeMs
    if elapsedTimeMs > durationMs then 0
    else subUint32 durationMs elapsedTimeMs

/-- Progress in percent, `getProgressPercent(startTimeMs, durationMs)` of
src/programs.h, with `millis()` returning `millis`. The product
`elapsedTimeMs * 100` is a 32-bit `unsigned long`. -/
def ProgramsH.getProgressPercent (millis startTimeMs durationMs : Nat) : Int :=
  if durationMs = 0 then 0
  else
    let currentTimeMs := millis
    let elapsedTimeMs := subUint32 currentTimeMs startTimeMs
    if elapsedTimeMs > durationMs then 100
    else uint32ToInt (mulUint32 elapsedTimeMs 100 / durationMs)

/-! ## Durations the controller can hold -/

/-- The custom program lasts between 1 and 99 days and the program duration
lies between one day and 99 days in seconds. -/
def DurationInvariant (d : Device) : Prop :=
  1 ≤ d.sys.customDays ∧ d.sys.customDays ≤ 99 ∧
  86400 ≤ d.sys.programDuration ∧ d.sys.programDuration ≤ 8553600

instance (d : Device) : Decidable (DurationInvariant d) := by
  unfold DurationInvariant; infer_instance

/-! ## Arithmetic lemmas -/

theorem toUint32_lt (n : Nat) : toUint32 n < UINT32_RANGE := by
  unfold toUint32 UINT32_RANGE
  omega

theorem toUint32_of_lt {n : Nat} (h : n < UINT32_RANGE) : toUint32 n = n := by
  unfold toUint32
  exact Nat.mod_eq_of_lt h

theorem subUint32_lt (a b : Nat) : subUint32 a b < UINT32_RANGE := by
  unfold subUint32 UINT32_RANGE
  omega

theorem mulUint32_lt (a b : Nat) : mulUint32 a b < UINT32_RANGE := by
  unfold mulUint32 UINT32_RANGE
  omega

/-- Without wraparound the 32-bit difference is the ordinary difference. -/
theorem subUint32_of_le {a b : Nat} (hba : b ≤ a) (ha : a < UINT32_RANGE) :
    subUint32 a b = a - b := by
  unfold subUint32 toUint32 UINT32_RANGE at *
  omega

/-- When the subtrahend is the larger value the difference wraps around. -/
theorem subUint32_of_lt {a b : Nat} (hab : a < b) (hb : b < UINT32_RANGE) :
    subUint32 a b = a + UINT32_RANGE - b := by
  unfold subUint32 toUint32 UINT32_RANGE at *
  omega

/-- A clock reading minus itself, as stored in a `uint32_t`, is zero. -/
theorem subUint32_toUint32_self (t : Nat) : subUint32 t (toUint32 t) = 0 := by
  unfold subUint32 toUint32 UINT32_RANGE
  omega

theorem subUint32_zero {a : Nat} (ha : a < UINT32_RANGE) : subUint32 a 0 = a := by
  unfold subUint32 toUint32 UINT32_RANGE at *
  omega

/-! ## The run record after each operation -/

/-- A valid index selects a duration that fits a `uint32_t`. -/
theorem selectDuration_valid (p : Int) (s : SystemState) (hp : 1 ≤ p ∧ p ≤ 4) :
    ∃ duration, selectDuration p s = some duration ∧ duration < UINT32_RANGE := by
  obtain ⟨h1, h4⟩ := hp
  have hcases : p = 1 ∨ p = 2 ∨ p = 3 ∨ p = 4 := by omega
  rcases hcases with h | h | h | h
  · exact ⟨PROGRAM_1_DURATION, by simp [selectDuration, h], by decide⟩
  · exact ⟨PROGRAM_2_DURATION, by simp [selectDuration, h], by decide⟩
  · exact ⟨PROGRAM_3_DURATION, by simp [selectDuration, h], by decide⟩
  · exact ⟨mulUint32 (mulUint32 (mulUint32 s.customDays 24) 60) 60,
      by simp [selectDuration, h], mulUint32_lt _ _⟩

/-- An index outside `1..4` takes the `default` branch. -/
theorem selectDuration_invalid (p : Int) (s : SystemState) (hp : p < 1 ∨ 4 < p) :
    selectDuration p s = none := by
  have h1 : p ≠ 1 := by omega
  have h2 : p ≠ 2 := by omega
  have h3 : p ≠ 3 := by omega
  have h4 : p ≠ 4 := by omega
  simp [selectDuration, h1, h2, h3, h4]

/-- The selected duration reads only `customDays` of the run record. -/
theorem selectDuration_congr (p : Int) (s t : SystemState)
    (h : s.customDays = t.customDays) : selectDuration p s = selectDuration p t := by
  simp [selectDuration, h]

/-- The run record written by a successful `startProgram`. -/
theorem startProgram_sys (p : Int) (env : Env) (d : Device) (duration : Nat)
    (h : selectDuration p d.sys = some duration) :
    (startProgram p env d).sys =
      { d.sys with
        programDuration := duration
        activeProgram := p
        state := .RUNNING
        startTime := toUint32 env.epoch
        motorActive := true } := by
  unfold startProgram
  rw [h]
  dsimp only
  split <;> rfl

/-- The run record written by `stopProgram`. -/
theorem stopProgram_sys (env : Env) (d : Device) :
    (stopProgram env d).sys = { d.sys with state := .IDLE, motorActive := false } := by
  unfold stopProgram
  dsimp only
  split <;> rfl

/-- The motor pin after `stopProgram`. -/
theorem stopProgram_motorPin (env : Env) (d : Device) :
    (stopProgram env d).motorPin = false := by
  unfold stopProgram
  dsimp only
  split <;> rfl

/-- Without wraparound the elapsed time is the plain clock difference. -/
theorem elapsedTime_of_le (now : Nat) (s : SystemState)
    (h : s.startTime ≤ now) (hnow : now < UINT32_RANGE) :
    elapsedTime now s = now - s.startTime :=
  subUint32_of_le h hnow

/-! ## Starting, stopping, completing and faulting a cycle -/

/-- C1: for every program index `p` in `1..4`, every prior device and every
32-bit clock reading `t`, `startProgram p` leaves the phase `RUNNING`,
`activeProgram = p`, `startTime = t` and `motorActive = true` (motor pin
high); the elapsed time at the same reading `t` is `0` and `getRemainingTime`
returns the full `programDuration`. -/
theorem startProgram_arms_cycle (p : Int) (env : Env) (d : Device)
    (hp : 1 ≤ p ∧ p ≤ 4) (ht : env.epoch < UINT32_RANGE) :
    (startProgram p env d).sys.state = ProgramState.RUNNING ∧
    (startProgram p env d).sys.activeProgram = p ∧
    (startProgram p env d).sys.startTime = env.epoch ∧
    (startProgram p env d).sys.motorActive = true ∧
    elapsedTime env.epoch (startProgram p env d).sys = 0 ∧
    getRemainingTime env.epoch (startProgram p env d).sys =
      (startProgram p env d).sys.programDuration := by
  obtain ⟨duration, hsel, hlt⟩ := selectDuration_valid p d.sys hp
  rw [startProgram_sys p env d duration hsel]
  have hzero : subUint32 env.epoch (toUint32 env.epoch) = 0 :=
    subUint32_toUint32_self env.epoch
  refine ⟨rfl, rfl, toUint32_of_lt ht, rfl, hzero, ?_⟩
  simp only [getRemainingTime, elapsedTime, hzero]
  by_cases hd : duration = 0
  · simp [hd]
  · have hpos : ¬ duration ≤ 0 := by omega
    simp [hpos, subUint32_zero hlt]

/-- Witness for C1: program 4 started from the boot device at clock 1000. -/
theorem startProgram_arms_cycle_witness :
    (startProgram 4 (envAt 1000) bootDevice).sys.state = ProgramState.RUNNING ∧
    (startProgram 4 (envAt 1000) bootDevice).sys.activeProgram = 4 ∧
    (startProgram 4 (envAt 1000) bootDevice).sys.startTime = (envAt 1000).epoch ∧
    (startProgram 4 (envAt 1000) bootDevice).sys.motorActive = true ∧
    elapsedTime (envAt 1000).epoch (startProgram 4 (envAt 1000) bootDevice).sys = 0 ∧
    getRemainingTime (envAt 1000).epoch (startProgram 4 (envAt 1000) bootDevice).sys =
      (startProgram 4 (envAt 1000) bootDevice).sys.programDuration :=
  startProgram_arms_cycle 4 (envAt 1000) bootDevice (by decide) (by decide)

/-- C2: for every `RUNNING` device with `programDuration > 0` and every clock
reading whose 32-bit advance since `startTime` is at least `programDuration`,
one call of `onProgramTimer` leaves the phase `COMPLETED` and the motor off
(`motorActive = false`, motor pin low). -/
theorem onProgramTimer_completes (env : Env) (d : Device)
    (hrun : d.sys.state = ProgramState.RUNNING)
    (hpos : 0 < d.sys.programDuration)
    (hadv : d.sys.programDuration ≤ elapsedTime env.epoch d.sys) :
    (onProgramTimer env d).sys.state = ProgramState.COMPLETED ∧
    (onProgramTimer env d).sys.motorActive = false ∧
    (onProgramTimer env d).motorPin = false := by
  unfold onProgramTimer
  rw [if_pos hrun, if_pos ⟨hpos, hadv⟩]
  exact ⟨rfl, rfl, rfl⟩

/-- Witness for C2: program 1 started at clock 1000 and ticked exactly seven
days later. -/
theorem onProgramTimer_completes_witness :
    (onProgramTimer (envAt 605800) (startProgram 1 (envAt 1000) bootDevice)).sys.state
      = ProgramState.COMPLETED ∧
    (onProgramTimer (envAt 605800) (startProgram 1 (envAt 1000) bootDevice)).sys.motorActive
      = false ∧
    (onProgramTimer (envAt 605800) (startProgram 1 (envAt 1000) bootDevice)).motorPin
      = false :=
  onProgramTimer_completes (envAt 605800) (startProgram 1 (envAt 1000) bootDevice)
    (by decide) (by decide) (by decide)

/-- C3: for every `RUNNING` device whose stored `tankLevelOk` is `true`,
`checkTankLevel` with a not-OK sensor reading leaves the phase `ERROR`, the
motor off (`motorActive = false`, motor pin low) and `tankLevelOk = false`. -/
theorem checkTankLevel_faults_running (env : Env) (d : Device)
    (hrun : d.sys.state = ProgramState.RUNNING)
    (hok : d.sys.tankLevelOk = true)
    (hlow : env.sensorHigh = false) :
    (checkTankLevel env d).sys.state = ProgramState.ERROR ∧
    (checkTankLevel env d).sys.motorActive = false ∧
    (checkTankLevel env d).sys.tankLevelOk = false ∧
    (checkTankLevel env d).motorPin = false := by
  have hne : env.sensorHigh ≠ d.sys.tankLevelOk := by simp [hlow, hok]
  unfold checkTankLevel
  dsimp only
  rw [if_pos hne]
  have hcond : (!env.sensorHigh && decide (d.sys.state = ProgramState.RUNNING)) = true := by
    simp [hlow, hrun]
  rw [if_pos hcond]
  split <;> exact ⟨rfl, rfl, by simpa using hlow, rfl⟩

/-- Witness for C3: the tank runs empty while program 2 is running. -/
theorem checkTankLevel_faults_running_witness :
    (checkTankLevel (envLowAt 2000) (startProgram 2 (envAt 1000) bootDevice)).sys.state
      = ProgramState.ERROR ∧
    (checkTankLevel (envLowAt 2000) (startProgram 2 (envAt 1000) bootDevice)).sys.motorActive
      = false ∧
    (checkTankLevel (envLowAt 2000) (startProgram 2 (envAt 1000) bootDevice)).sys.tankLevelOk
      = false ∧
    (checkTankLevel (envLowAt 2000) (startProgram 2 (envAt 1000) bootDevice)).motorPin
      = false :=
  checkTankLevel_faults_running (envLowAt 2000) (startProgram 2 (envAt 1000) bootDevice)
    (by decide) (by decide) (by decide)

/-- C4: for every prior device, whatever its phase, `stopProgram` leaves the
phase `IDLE` and the motor off (`motorActive = false`, motor pin low). -/
theorem stopProgram_idles (env : Env) (d : Device) :
    (stopProgram env d).sys.state = ProgramState.IDLE ∧
    (stopProgram env d).sys.motorActive = false ∧
    (stopProgram env d).motorPin = false := by
  rw [stopProgram_sys, stopProgram_motorPin]
  exact ⟨rfl, rfl, rfl⟩

/-- C5: for every integer index outside `1..4` and every prior device,
`startProgram` is a no-op: the whole `SystemState` is unchanged, and so is
every output of the device. -/
theorem startProgram_invalid_noop (p : Int) (env : Env) (d : Device)
    (hp : p < 1 ∨ 4 < p) :
    (startProgram p env d).sys = d.sys ∧ startProgram p env d = d := by
  have hnone := selectDuration_invalid p d.sys hp
  have hsame : startProgram p env d = d := by
    unfold startProgram
    rw [hnone]
  exact ⟨by rw [hsame], hsame⟩

/-- Witness for C5: index 5 on a running device. -/
theorem startProgram_invalid_noop_witness :
    (startProgram 5 (envAt 2000) (startProgram 1 (envAt 1000) bootDevice)).sys
      = (startProgram 1 (envAt 1000) bootDevice).sys ∧
    startProgram 5 (envAt 2000) (startProgram 1 (envAt 1000) bootDevice)
      = startProgram 1 (envAt 1000) bootDevice :=
  startProgram_invalid_noop 5 (envAt 2000) (startProgram 1 (envAt 1000) bootDevice)
    (by decide)

/-- C6: re-arming is not cumulative. For valid indices `a` and `b`, every
initial device and every 32-bit clock reading `t`, `startProgram a` (at any
earlier reading) followed by `startProgram b` at `t` yields exactly the
`SystemState` of `startProgram b` alone at `t`: `activeProgram = b`,
`programDuration` is the duration selected for `b`, `startTime = t` and the
elapsed time at `t` is `0`. -/
theorem startProgram_rearm (a b : Int) (env0 env : Env) (d : Device)
    (ha : 1 ≤ a ∧ a ≤ 4) (hb : 1 ≤ b ∧ b ≤ 4) (ht : env.epoch < UINT32_RANGE) :
    (startProgram b env (startProgram a env0 d)).sys = (startProgram b env d).sys ∧
    (startProgram b env (startProgram a env0 d)).sys.activeProgram = b ∧
    selectDuration b d.sys
      = some (startProgram b env (startProgram a env0 d)).sys.programDuration ∧
    (startProgram b env (startProgram a env0 d)).sys.startTime = env.epoch ∧
    elapsedTime env.epoch (startProgram b env (startProgram a env0 d)).sys = 0 := by
  obtain ⟨da, hsa, -⟩ := selectDuration_valid a d.sys ha
  obtain ⟨db, hsb, -⟩ := selectDuration_valid b d.sys hb
  have hfirst := startProgram_sys a env0 d da hsa
  have hsb2 : selectDuration b (startProgram a env0 d).sys = some db := by
    rw [← hsb]
    apply selectDuration_congr
    rw [hfirst]
  rw [startProgram_sys b env (startProgram a env0 d) db hsb2,
    startProgram_sys b env d db hsb, hfirst]
  refine ⟨rfl, rfl, hsb, toUint32_of_lt ht, ?_⟩
  exact subUint32_toUint32_self env.epoch

/-- Witness for C6: program 3 started at clock 1000, program 4 at clock 5000. -/
theorem startProgram_rearm_witness :
    (startProgram 4 (envAt 5000) (startProgram 3 (envAt 1000) bootDevice)).sys
      = (startProgram 4 (envAt 5000) bootDevice).sys ∧
    (startProgram 4 (envAt 5000) (startProgram 3 (envAt 1000) bootDevice)).sys.activeProgram
      = 4 ∧
    selectDuration 4 bootDevice.sys
      = some (startProgram 4 (envAt 5000)
          (startProgram 3 (envAt 1000) bootDevice)).sys.programDuration ∧
    (startProgram 4 (envAt 5000) (startProgram 3 (envAt 1000) bootDevice)).sys.startTime
      = (envAt 5000).epoch ∧
    elapsedTime (envAt 5000).epoch
      (startProgram 4 (envAt 5000) (startProgram 3 (envAt 1000) bootDevice)).sys = 0 :=
  startProgram_rearm 3 4 (envAt 1000) (envAt 5000) bootDevice
    (by decide) (by decide) (by decide)

/-! ## Open-ended programs -/

/-- A running program of duration zero reports no remaining time, and
`getProgressPercent` reports `100` for it at every clock reading. -/
theorem queries_of_zero_duration (now : Nat) (s : SystemState)
    (hrun : s.state = ProgramState.RUNNING) (hzero : s.programDuration = 0) :
    getRemainingTime now s = 0 ∧ getProgressPercent now s = 100 := by
  simp [getRemainingTime, getProgressPercent, hrun, hzero]

/-- One tick leaves a device of duration zero as it is. -/
theorem onProgramTimer_zero_duration (env : Env) (d : Device)
    (hzero : d.sys.programDuration = 0) : onProgramTimer env d = d := by
  unfold onProgramTimer
  split
  · rw [if_neg]
    rw [hzero]
    omega
  · rfl

/-- C8: for every device with `programDuration = 0` and every clock reading,
`onProgramTimer` leaves the `SystemState` unchanged, so the phase is never
moved to `COMPLETED`; the same holds for any sequence of ticks at any clock
readings. -/
theorem onProgramTimer_never_completes_open_ended (env : Env) (envs : List Env)
    (d : Device) (hzero : d.sys.programDuration = 0) :
    (onProgramTimer env d).sys = d.sys ∧
    (onProgramTimer env d).sys.state = d.sys.state ∧
    (tickAll envs d).sys = d.sys := by
  have hone : onProgramTimer env d = d := onProgramTimer_zero_duration env d hzero
  refine ⟨by rw [hone], by rw [hone], ?_⟩
  have hall : tickAll envs d = d := by
    unfold tickAll
    induction envs with
    | nil => rfl
    | cons e rest ih =>
      rw [List.foldl_cons, onProgramTimer_zero_duration e d hzero]
      exact ih
  rw [hall]

/-- Witness for C8: an open-ended running program ticked long after its
start. -/
theorem onProgramTimer_never_completes_open_ended_witness :
    (onProgramTimer (envAt 4000000000)
      (startProgram 4 (envAt 1000) (deviceWithCustomDays 0))).sys
      = (startProgram 4 (envAt 1000) (deviceWithCustomDays 0)).sys ∧
    (onProgramTimer (envAt 4000000000)
      (startProgram 4 (envAt 1000) (deviceWithCustomDays 0))).sys.state
      = (startProgram 4 (envAt 1000) (deviceWithCustomDays 0)).sys.state ∧
    (tickAll [envAt 2000, envAt 3000000000]
      (startProgram 4 (envAt 1000) (deviceWithCustomDays 0))).sys
      = (startProgram 4 (envAt 1000) (deviceWithCustomDays 0)).sys :=
  onProgramTimer_never_completes_open_ended (envAt 4000000000)
    [envAt 2000, envAt 3000000000]
    (startProgram 4 (envAt 1000) (deviceWithCustomDays 0)) (by decide)

/-! ## Progress arithmetic -/

/-- Below the duration the wrapped product stays under `100 * duration`, so
the quotient computed by `getProgressPercent` is below `100`. -/
theorem progress_quotient_lt (e duration : Nat) (h : e < duration) :
    mulUint32 e 100 / duration < 100 := by
  have hmod : mulUint32 e 100 ≤ e * 100 := Nat.mod_le _ _
  have hlt : mulUint32 e 100 < 100 * duration := by omega
  exact (Nat.div_lt_iff_lt_mul (by omega)).mpr (by omega)

/-- A quotient below `100` survives the conversion to `int`. -/
theorem uint32ToInt_of_lt_100 (n : Nat) (h : n < 100) : uint32ToInt n = (n : Int) := by
  have hn : toUint32 n = n := toUint32_of_lt (by unfold UINT32_RANGE; omega)
  unfold uint32ToInt
  rw [hn, if_pos (by omega)]

/-- The value of `getProgressPercent` while the elapsed time is below the
duration. -/
theorem getProgressPercent_of_lt (now : Nat) (s : SystemState)
    (hrun : s.state = ProgramState.RUNNING)
    (h : elapsedTime now s < s.programDuration) :
    getProgressPercent now s
      = ((mulUint32 (elapsedTime now s) 100 / s.programDuration : Nat) : Int) := by
  have hnot : ¬ elapsedTime now s ≥ s.programDuration := by omega
  unfold getProgressPercent
  rw [if_neg (by simp [hrun]), if_neg hnot]
  exact uint32ToInt_of_lt_100 _ (progress_quotient_lt _ _ h)

/-- The value of `getProgressPercent` once the elapsed time has reached the
duration. -/
theorem getProgressPercent_of_ge (now : Nat) (s : SystemState)
    (hrun : s.state = ProgramState.RUNNING)
    (h : s.programDuration ≤ elapsedTime now s) :
    getProgressPercent now s = 100 := by
  unfold getProgressPercent
  rw [if_neg (by simp [hrun]), if_pos h]

/-- While running, the progress is between `0` and `100`, and below `100`
as long as the elapsed time is below the duration. -/
theorem getProgressPercent_lt_100 (now : Nat) (s : SystemState)
    (hrun : s.state = ProgramState.RUNNING)
    (h : elapsedTime now s < s.programDuration) :
    0 ≤ getProgressPercent now s ∧ getProgressPercent now s < 100 := by
  rw [getProgressPercent_of_lt now s hrun h]
  have hq := progress_quotient_lt _ _ h
  exact ⟨Int.ofNat_nonneg _, by exact_mod_cast hq⟩

/-- For a `RUNNING` state whose duration `D` satisfies `0 < D ≤ 42949673`, so
that the product `elapsed * 100` fits 32 bits, `getProgressPercent` is
non-decreasing in the elapsed time, and it is `100` whenever the elapsed time
is at least `D`. -/
theorem getProgressPercent_monotone_bounded (s : SystemState)
    (hrun : s.state = ProgramState.RUNNING)
    (hpos : 0 < s.programDuration)
    (hbound : s.programDuration ≤ 42949673) :
    (∀ now1 now2 : Nat, elapsedTime now1 s ≤ elapsedTime now2 s →
      getProgressPercent now1 s ≤ getProgressPercent now2 s) ∧
    (∀ now : Nat, s.programDuration ≤ elapsedTime now s →
      getProgressPercent now s = 100) := by
  refine ⟨?_, fun now h => getProgressPercent_of_ge now s hrun h⟩
  intro now1 now2 hle
  by_cases h2 : s.programDuration ≤ elapsedTime now2 s
  · rw [getProgressPercent_of_ge now2 s hrun h2]
    by_cases h1 : s.programDuration ≤ elapsedTime now1 s
    · rw [getProgressPercent_of_ge now1 s hrun h1]
    · have := getProgressPercent_lt_100 now1 s hrun (by omega)
      omega
  · have h2lt : elapsedTime now2 s < s.programDuration := by omega
    have h1lt : elapsedTime now1 s < s.programDuration := by omega
    rw [getProgressPercent_of_lt now1 s hrun h1lt, getProgressPercent_of_lt now2 s hrun h2lt]
    have hfit : ∀ e : Nat, e < s.programDuration → mulUint32 e 100 = e * 100 := by
      intro e he
      unfold mulUint32 UINT32_RANGE
      exact Nat.mod_eq_of_lt (by omega)
    rw [hfit _ h1lt, hfit _ h2lt]
    exact Int.ofNat_le.mpr (Nat.div_le_div_right (Nat.mul_le_mul_right 100 hle))

/-! ## Clock wraparound -/

/-- C10, counterexample: program 1 was started at epoch 4294967295 and the
clock then wrapped to `0 < startTime`; the elapsed time is the wrapped value
`1`, `getRemainingTime` returns 604799 (not `0`) and `getProgressPercent`
returns `0` (not `100`). -/
theorem wraparound_not_clamped :
    wrappedRun.state = ProgramState.RUNNING ∧
    wrappedRun.programDuration = 604800 ∧
    wrappedRun.startTime = 4294967295 ∧
    elapsedTime 0 wrappedRun = 1 ∧
    getRemainingTime 0 wrappedRun = 604799 ∧
    getProgressPercent 0 wrappedRun = 0 := by
  decide

/-- C10, amended: for every well-formed `RUNNING` state with duration `D`
(in particular `D > 0`) and every clock reading `now < startTime`, the elapsed time is the wrapped
32-bit difference `w = now + 2^32 - startTime`. When `w ≥ D` (in particular
whenever `startTime - now ≤ 2^32 - D`) `getRemainingTime` returns `0` and
`getProgressPercent` returns `100`; when `w < D` they return `D - w` and a
value in `0..99`. -/
theorem wraparound_queries (now : Nat) (s : SystemState)
    (hrun : s.state = ProgramState.RUNNING)
    (hwf : s.WellFormed)
    (hlt : now < s.startTime) :
    elapsedTime now s = now + UINT32_RANGE - s.startTime ∧
    (s.programDuration ≤ now + UINT32_RANGE - s.startTime →
      getRemainingTime now s = 0 ∧ getProgressPercent now s = 100) ∧
    (now + UINT32_RANGE - s.startTime < s.programDuration →
      getRemainingTime now s = s.programDuration - (now + UINT32_RANGE - s.startTime) ∧
      0 ≤ getProgressPercent now s ∧ getProgressPercent now s < 100) := by
  obtain ⟨hD, hstart, -⟩ := hwf
  have hel : elapsedTime now s = now + UINT32_RANGE - s.startTime :=
    subUint32_of_lt hlt hstart
  refine ⟨hel, ?_, ?_⟩
  · intro hge
    have hge2 : s.programDuration ≤ elapsedTime now s := by rw [hel]; exact hge
    refine ⟨?_, getProgressPercent_of_ge now s hrun hge2⟩
    unfold getRemainingTime
    rw [if_neg (by simp [hrun]), if_pos hge2]
  · intro hw
    have hw2 : elapsedTime now s < s.programDuration := by rw [hel]; exact hw
    refine ⟨?_, getProgressPercent_lt_100 now s hrun hw2⟩
    unfold getRemainingTime
    rw [if_neg (by simp [hrun]), if_neg (by omega), hel]
    exact subUint32_of_le (by omega) hD

/-- Witness for C10, amended: the wrapped run read at clock 0. -/
theorem wraparound_queries_witness :
    elapsedTime 0 wrappedRun = 0 + UINT32_RANGE - wrappedRun.startTime ∧
    (wrappedRun.programDuration ≤ 0 + UINT32_RANGE - wrappedRun.startTime →
      getRemainingTime 0 wrappedRun = 0 ∧ getProgressPercent 0 wrappedRun = 100) ∧
    (0 + UINT32_RANGE - wrappedRun.startTime < wrappedRun.programDuration →
      getRemainingTime 0 wrappedRun
        = wrappedRun.programDuration - (0 + UINT32_RANGE - wrappedRun.startTime) ∧
      0 ≤ getProgressPercent 0 wrappedRun ∧ getProgressPercent 0 wrappedRun < 100) :=
  wraparound_queries 0 wrappedRun (by decide) (by decide) (by decide)

/-! ## The derived queries against their specification -/

/-- Outside the phase `RUNNING` both queries return `0`. -/
theorem queries_of_not_running (now : Nat) (s : SystemState)
    (h : s.state ≠ ProgramState.RUNNING) :
    getRemainingTime now s = 0 ∧ getProgressPercent now s = 0 := by
  unfold getRemainingTime getProgressPercent
  rw [if_pos h, if_pos h]
  exact ⟨rfl, rfl⟩

/-- While running, the remaining time is the truncated difference of
duration and elapsed time. -/
theorem getRemainingTime_running (now : Nat) (s : SystemState)
    (hrun : s.state = ProgramState.RUNNING) (hD : s.programDuration < UINT32_RANGE) :
    getRemainingTime now s = s.programDuration - elapsedTime now s := by
  unfold getRemainingTime
  rw [if_neg (by simp [hrun])]
  by_cases h : elapsedTime now s ≥ s.programDuration
  · rw [if_pos h]
    omega
  · rw [if_neg h]
    exact subUint32_of_le (by omega) hD

/-- The specified elapsed time in the phase `RUNNING`. -/
theorem specElapsed_running (now : Nat) (s : SystemState)
    (hrun : s.state = ProgramState.RUNNING) :
    specElapsed now s = (elapsedTime now s : Int) := by
  unfold specElapsed
  rw [if_pos (Or.inl hrun)]

/-- The specified progress, for a positive duration and a phase in which
the elapsed time is defined, as a natural number. -/
theorem specProgressPercent_eq (now : Nat) (s : SystemState)
    (hpos : 0 < s.programDuration)
    (hel : specElapsed now s = (elapsedTime now s : Int)) :
    specProgressPercent now s
      = ((min 100 (elapsedTime now s * 100 / s.programDuration) : Nat) : Int) := by
  unfold specProgressPercent
  rw [if_pos hpos, hel]
  have hcast : (elapsedTime now s : Int) * 100 / (s.programDuration : Int)
      = ((elapsedTime now s * 100 / s.programDuration : Nat) : Int) := by
    push_cast
    rfl
  rw [hcast]
  generalize elapsedTime now s * 100 / s.programDuration = q
  rcases Nat.le_total 100 q with hq | hq
  · rw [Nat.min_eq_left hq]
    omega
  · rw [Nat.min_eq_right hq]
    omega

/-- C11, counterexample: the completed cycle `completedRun` (duration 604800,
elapsed 604800 at clock 605800) reports progress `0` where the specified
value is `100`, and the faulted cycle `faultedRun` (duration 1209600, elapsed
1000 at clock 2000) reports remaining time `0` where the specified value is
1208600. -/
theorem queries_zero_after_running :
    completedRun.state = ProgramState.COMPLETED ∧
    0 < completedRun.programDuration ∧
    getProgressPercent 605800 completedRun = 0 ∧
    specProgressPercent 605800 completedRun = 100 ∧
    faultedRun.state = ProgramState.ERROR ∧
    0 < faultedRun.programDuration ∧
    getRemainingTime 2000 faultedRun = 0 ∧
    specRemaining 2000 faultedRun = 1208600 := by
  decide

/-- C11, amended: for a well-formed state with duration `D > 0`, in the phase
`RUNNING` `getRemainingTime` equals the specified `max(0, D - elapsed)`, and
for `D ≤ 42949673` `getProgressPercent` equals the specified
`clamp(elapsed * 100 / D, 0, 100)`, with `elapsed` the 32-bit difference
`now - startTime`; in every other phase (`IDLE`, `COMPLETED`, `ERROR`) both
queries return `0`. -/
theorem queries_follow_spec_only_while_running (now : Nat) (s : SystemState)
    (hwf : s.WellFormed) (hpos : 0 < s.programDuration) :
    (s.state = ProgramState.RUNNING →
      (getRemainingTime now s : Int) = specRemaining now s ∧
      (s.programDuration ≤ 42949673 →
        getProgressPercent now s = specProgressPercent now s)) ∧
    (s.state ≠ ProgramState.RUNNING →
      getRemainingTime now s = 0 ∧ getProgressPercent now s = 0) := by
  refine ⟨?_, queries_of_not_running now s⟩
  intro hrun
  have hel := specElapsed_running now s hrun
  constructor
  · rw [getRemainingTime_running now s hrun hwf.1]
    unfold specRemaining
    rw [if_pos hpos, hel]
    omega
  · intro hbound
    rw [specProgressPercent_eq now s hpos hel]
    by_cases h : s.programDuration ≤ elapsedTime now s
    · rw [getProgressPercent_of_ge now s hrun h]
      have hq : 100 ≤ elapsedTime now s * 100 / s.programDuration :=
        (Nat.le_div_iff_mul_le hpos).mpr (by omega)
      rw [Nat.min_eq_left hq]
      rfl
    · have hlt : elapsedTime now s < s.programDuration := by omega
      rw [getProgressPercent_of_lt now s hrun hlt]
      have hfit : mulUint32 (elapsedTime now s) 100 = elapsedTime now s * 100 := by
        unfold mulUint32 UINT32_RANGE
        exact Nat.mod_eq_of_lt (by omega)
      have hq := progress_quotient_lt _ _ hlt
      rw [hfit] at hq ⊢
      rw [Nat.min_eq_right (by omega)]

/-- Witness for C11, amended: program 1 running since clock 1000, read at
clock 2000. -/
theorem queries_follow_spec_only_while_running_witness :
    ((startProgram 1 (envAt 1000) bootDevice).sys.state = ProgramState.RUNNING →
      (getRemainingTime 2000 (startProgram 1 (envAt 1000) bootDevice).sys : Int)
        = specRemaining 2000 (startProgram 1 (envAt 1000) bootDevice).sys ∧
      ((startProgram 1 (envAt 1000) bootDevice).sys.programDuration ≤ 42949673 →
        getProgressPercent 2000 (startProgram 1 (envAt 1000) bootDevice).sys
          = specProgressPercent 2000 (startProgram 1 (envAt 1000) bootDevice).sys)) ∧
    ((startProgram 1 (envAt 1000) bootDevice).sys.state ≠ ProgramState.RUNNING →
      getRemainingTime 2000 (startProgram 1 (envAt 1000) bootDevice).sys = 0 ∧
      getProgressPercent 2000 (startProgram 1 (envAt 1000) bootDevice).sys = 0) :=
  queries_follow_spec_only_while_running 2000 (startProgram 1 (envAt 1000) bootDevice).sys
    (by decide) (by decide)

/-! ## The run record after a tick, a sensor sample and a custom-days request -/

/-- A duration is selected only for an index in `1..4`. -/
theorem selectDuration_some_valid (p : Int) (s : SystemState) (duration : Nat)
    (h : selectDuration p s = some duration) : 1 ≤ p ∧ p ≤ 4 := by
  by_contra hp
  have hnone := selectDuration_invalid p s (by omega)
  rw [hnone] at h
  exact Option.noConfusion h

/-- The motor pin after a successful `startProgram`. -/
theorem startProgram_motorPin (p : Int) (env : Env) (d : Device) (duration : Nat)
    (h : selectDuration p d.sys = some duration) :
    (startProgram p env d).motorPin = true := by
  unfold startProgram
  rw [h]
  dsimp only
  split <;> rfl

/-- The device after `startProgram` with an index that selects no duration. -/
theorem startProgram_none (p : Int) (env : Env) (d : Device)
    (h : selectDuration p d.sys = none) : startProgram p env d = d := by
  unfold startProgram
  rw [h]

/-- The run record and the motor pin after one tick. -/
theorem onProgramTimer_cases (env : Env) (d : Device) :
    onProgramTimer env d = d ∨
    (d.sys.state = ProgramState.RUNNING ∧
      (onProgramTimer env d).sys
        = { d.sys with state := ProgramState.COMPLETED, motorActive := false } ∧
      (onProgramTimer env d).motorPin = false) := by
  unfold onProgramTimer
  by_cases hrun : d.sys.state = ProgramState.RUNNING
  · rw [if_pos hrun]
    by_cases hdone : d.sys.programDuration > 0 ∧
        elapsedTime env.epoch d.sys ≥ d.sys.programDuration
    · rw [if_pos hdone]
      exact Or.inr ⟨hrun, rfl, rfl⟩
    · rw [if_neg hdone]
      exact Or.inl rfl
  · rw [if_neg hrun]
    exact Or.inl rfl

/-- The three outcomes of one sensor sample: no change of the reading, a
changed reading that is only stored, or the fault of a running cycle. -/
theorem checkTankLevel_cases (env : Env) (d : Device) :
    (env.sensorHigh = d.sys.tankLevelOk ∧ checkTankLevel env d = d) ∨
    (env.sensorHigh ≠ d.sys.tankLevelOk ∧
      ¬ (env.sensorHigh = false ∧ d.sys.state = ProgramState.RUNNING) ∧
      checkTankLevel env d = { d with sys := { d.sys with tankLevelOk := env.sensorHigh } }) ∨
    (env.sensorHigh ≠ d.sys.tankLevelOk ∧ env.sensorHigh = false ∧
      d.sys.state = ProgramState.RUNNING ∧
      (checkTankLevel env d).sys
        = { d.sys with
            tankLevelOk := false, state := ProgramState.ERROR, motorActive := false } ∧
      (checkTankLevel env d).motorPin = false) := by
  unfold checkTankLevel
  dsimp only
  by_cases hne : env.sensorHigh ≠ d.sys.tankLevelOk
  · rw [if_pos hne]
    by_cases hfault : env.sensorHigh = false ∧ d.sys.state = ProgramState.RUNNING
    · have hcond : (!env.sensorHigh && decide (d.sys.state = ProgramState.RUNNING)) = true := by
        simp [hfault.1, hfault.2]
      rw [if_pos hcond]
      refine Or.inr (Or.inr ⟨hne, hfault.1, hfault.2, ?_, ?_⟩)
      · split <;> simp [publishStatus, setLedStatus, hfault.1]
      · split <;> rfl
    · have hcond : ¬ (!env.sensorHigh && decide (d.sys.state = ProgramState.RUNNING)) = true := by
        intro hc
        apply hfault
        simpa using hc
      rw [if_neg hcond]
      exact Or.inr (Or.inl ⟨hne, hfault, rfl⟩)
  · rw [if_neg hne]
    exact Or.inl ⟨not_not.mp hne, rfl⟩

/-- The custom-days handler changes at most the field `customDays`. -/
theorem handleCustomDays_cases (doc : JsonDocument) (d : Device) :
    (handleCustomDays doc d).1 = d ∨
    (handleCustomDays doc d).1
      = { d with sys := { d.sys with customDays := intToUint32 (doc.asInt "days") } } := by
  unfold handleCustomDays
  dsimp only
  split
  · split
    · exact Or.inr rfl
    · exact Or.inl rfl
  · exact Or.inl rfl

/-! ## Sensor faults -/

/-- C13: for every operation among `startProgram`, `stopProgram`,
`onProgramTimer`, `checkTankLevel` and the custom-days request, and every
device whose phase is not `ERROR`: if the phase is `ERROR` afterwards, the
operation was `checkTankLevel`, the phase before was `RUNNING`, the stored
`tankLevelOk` was `true` and the sensor reading was not-OK. -/
theorem error_only_from_running_tank_fault (op : Operation) (env : Env) (d : Device)
    (hpre : d.sys.state ≠ ProgramState.ERROR)
    (hpost : (applyOperation op env d).sys.state = ProgramState.ERROR) :
    op = Operation.checkTankLevel ∧
    d.sys.state = ProgramState.RUNNING ∧
    d.sys.tankLevelOk = true ∧
    env.sensorHigh = false := by
  cases op with
  | startProgram p =>
    exfalso
    change (startProgram p env d).sys.state = ProgramState.ERROR at hpost
    cases hsel : selectDuration p d.sys with
    | none =>
      rw [startProgram_none p env d hsel] at hpost
      exact hpre hpost
    | some duration =>
      rw [startProgram_sys p env d duration hsel] at hpost
      exact ProgramState.noConfusion hpost
  | stopProgram =>
    exfalso
    change (stopProgram env d).sys.state = ProgramState.ERROR at hpost
    rw [stopProgram_sys] at hpost
    exact ProgramState.noConfusion hpost
  | onProgramTimer =>
    exfalso
    change (onProgramTimer env d).sys.state = ProgramState.ERROR at hpost
    rcases onProgramTimer_cases env d with h | h
    · rw [h] at hpost
      exact hpre hpost
    · rw [h.2.1] at hpost
      exact ProgramState.noConfusion hpost
  | checkTankLevel =>
    change (checkTankLevel env d).sys.state = ProgramState.ERROR at hpost
    rcases checkTankLevel_cases env d with h | h | h
    · rw [h.2] at hpost
      exact absurd hpost hpre
    · rw [h.2.2] at hpost
      exact absurd hpost hpre
    · obtain ⟨hne, hlow, hrun, -, -⟩ := h
      refine ⟨rfl, hrun, ?_, hlow⟩
      rw [hlow] at hne
      cases hok : d.sys.tankLevelOk with
      | true => rfl
      | false => exact absurd hok.symm hne
  | customDays doc =>
    exfalso
    change (handleCustomDays doc d).1.sys.state = ProgramState.ERROR at hpost
    rcases handleCustomDays_cases doc d with h | h
    · rw [h] at hpost
      exact hpre hpost
    · rw [h] at hpost
      exact hpre hpost

/-- Witness for C13: the tank runs empty while program 2 is running. -/
theorem error_only_from_running_tank_fault_witness :
    Operation.checkTankLevel = Operation.checkTankLevel ∧
    (startProgram 2 (envAt 1000) bootDevice).sys.state = ProgramState.RUNNING ∧
    (startProgram 2 (envAt 1000) bootDevice).sys.tankLevelOk = true ∧
    (envLowAt 2000).sensorHigh = false :=
  error_only_from_running_tank_fault Operation.checkTankLevel (envLowAt 2000)
    (startProgram 2 (envAt 1000) bootDevice) (by decide) (by decide)

/-! ## Reachable states -/

/-- The boot device satisfies the invariant. -/
theorem bootDeviceOf_invariant (deviceId : String) :
    ControllerInvariant (bootDeviceOf deviceId) := by
  have hprog : (bootDeviceOf deviceId).sys.activeProgram = 2 := rfl
  refine ⟨⟨fun h => ?_, fun h => ?_⟩, rfl, by rw [hprog]; decide, by rw [hprog]; decide⟩
  · exact ProgramState.noConfusion h
  · exact Bool.noConfusion h

/-- Every operation preserves the invariant. -/
theorem applyOperation_invariant (op : Operation) (env : Env) (d : Device)
    (h : ControllerInvariant d) : ControllerInvariant (applyOperation op env d) := by
  obtain ⟨hiff, hpin, hlo, hhi⟩ := h
  cases op with
  | startProgram p =>
    change ControllerInvariant (startProgram p env d)
    cases hsel : selectDuration p d.sys with
    | none =>
      rw [startProgram_none p env d hsel]
      exact ⟨hiff, hpin, hlo, hhi⟩
    | some duration =>
      have hp := selectDuration_some_valid p d.sys duration hsel
      unfold ControllerInvariant
      rw [startProgram_sys p env d duration hsel, startProgram_motorPin p env d duration hsel]
      exact ⟨⟨fun _ => rfl, fun _ => rfl⟩, rfl, hp.1, hp.2⟩
  | stopProgram =>
    change ControllerInvariant (stopProgram env d)
    unfold ControllerInvariant
    rw [stopProgram_sys, stopProgram_motorPin]
    refine ⟨⟨fun h => ?_, fun h => ?_⟩, rfl, hlo, hhi⟩
    · exact ProgramState.noConfusion h
    · exact Bool.noConfusion h
  | onProgramTimer =>
    change ControllerInvariant (onProgramTimer env d)
    rcases onProgramTimer_cases env d with h | h
    · rw [h]
      exact ⟨hiff, hpin, hlo, hhi⟩
    · unfold ControllerInvariant
      rw [h.2.1, h.2.2]
      refine ⟨⟨fun h => ?_, fun h => ?_⟩, rfl, hlo, hhi⟩
      · exact ProgramState.noConfusion h
      · exact Bool.noConfusion h
  | checkTankLevel =>
    change ControllerInvariant (checkTankLevel env d)
    rcases checkTankLevel_cases env d with h | h | h
    · rw [h.2]
      exact ⟨hiff, hpin, hlo, hhi⟩
    · rw [h.2.2]
      exact ⟨hiff, hpin, hlo, hhi⟩
    · obtain ⟨-, -, -, hsys, hmotor⟩ := h
      unfold ControllerInvariant
      rw [hsys, hmotor]
      refine ⟨⟨fun h => ?_, fun h => ?_⟩, rfl, hlo, hhi⟩
      · exact ProgramState.noConfusion h
      · exact Bool.noConfusion h
  | customDays doc =>
    change ControllerInvariant (handleCustomDays doc d).1
    rcases handleCustomDays_cases doc d with h | h
    · rw [h]
      exact ⟨hiff, hpin, hlo, hhi⟩
    · rw [h]
      exact ⟨hiff, hpin, hlo, hhi⟩

/-- The invariant holds after every sequence of operations. -/
theorem runOperations_invariant (trace : List (Operation × Env)) (d : Device)
    (h : ControllerInvariant d) : ControllerInvariant (runOperations trace d) := by
  unfold runOperations
  induction trace generalizing d with
  | nil => exact h
  | cons step rest ih =>
    rw [List.foldl_cons]
    exact ih _ (applyOperation_invariant step.1 step.2 d h)

/-- C14: in every state reached from the boot state by `startProgram`,
`stopProgram`, `onProgramTimer`, `checkTankLevel` and custom-days requests,
`state = RUNNING` implies `motorActive = true`, conversely
`motorActive = true` implies `state = RUNNING`, and the motor pin carries the
motor flag. -/
theorem running_iff_motor_active (deviceId : String) (trace : List (Operation × Env)) :
    ((runOperations trace (bootDeviceOf deviceId)).sys.state = ProgramState.RUNNING →
      (runOperations trace (bootDeviceOf deviceId)).sys.motorActive = true) ∧
    ((runOperations trace (bootDeviceOf deviceId)).sys.motorActive = true →
      (runOperations trace (bootDeviceOf deviceId)).sys.state = ProgramState.RUNNING) ∧
    (runOperations trace (bootDeviceOf deviceId)).motorPin
      = (runOperations trace (bootDeviceOf deviceId)).sys.motorActive := by
  have hinv := runOperations_invariant trace (bootDeviceOf deviceId)
    (bootDeviceOf_invariant deviceId)
  exact ⟨hinv.1.mp, hinv.1.mpr, hinv.2.1⟩

/-- C15, counterexample: the boot state is `IDLE` with the motor off while
`activeProgram = 2` is set; and after program 1 has been started and has
completed the motor is off while the phase is `COMPLETED`, not `IDLE`. -/
theorem idle_not_equivalent_to_motor_off :
    (runOperations [] bootDevice).sys.state = ProgramState.IDLE ∧
    (runOperations [] bootDevice).sys.motorActive = false ∧
    (runOperations [] bootDevice).sys.activeProgram = 2 ∧
    ¬ activeProgramUnset (runOperations [] bootDevice).sys ∧
    (runOperations [(Operation.startProgram 1, envAt 1000),
      (Operation.onProgramTimer, envAt 605800)] bootDevice).sys.motorActive = false ∧
    (runOperations [(Operation.startProgram 1, envAt 1000),
      (Operation.onProgramTimer, envAt 605800)] bootDevice).sys.state
      = ProgramState.COMPLETED := by
  decide

/-- C15, amended: in every state reached from the boot state by
`startProgram`, `stopProgram`, `onProgramTimer`, `checkTankLevel` and
custom-days requests, `state = IDLE` implies `motorActive = false`; the motor
is inactive exactly when the phase is not `RUNNING` (that is `IDLE`,
`COMPLETED` or `ERROR`); and `activeProgram` is never unset, it is always one
of `1..4`. -/
theorem idle_implies_motor_off (deviceId : String) (trace : List (Operation × Env)) :
    ((runOperations trace (bootDeviceOf deviceId)).sys.state = ProgramState.IDLE →
      (runOperations trace (bootDeviceOf deviceId)).sys.motorActive = false) ∧
    ((runOperations trace (bootDeviceOf deviceId)).sys.motorActive = false ↔
      (runOperations trace (bootDeviceOf deviceId)).sys.state ≠ ProgramState.RUNNING) ∧
    ¬ activeProgramUnset (runOperations trace (bootDeviceOf deviceId)).sys ∧
    1 ≤ (runOperations trace (bootDeviceOf deviceId)).sys.activeProgram ∧
    (runOperations trace (bootDeviceOf deviceId)).sys.activeProgram ≤ 4 := by
  obtain ⟨hiff, -, hlo, hhi⟩ := runOperations_invariant trace (bootDeviceOf deviceId)
    (bootDeviceOf_invariant deviceId)
  have hoff : (runOperations trace (bootDeviceOf deviceId)).sys.motorActive = false ↔
      (runOperations trace (bootDeviceOf deviceId)).sys.state ≠ ProgramState.RUNNING := by
    rw [Ne, hiff]
    cases (runOperations trace (bootDeviceOf deviceId)).sys.motorActive <;> simp
  refine ⟨fun hidle => hoff.mpr ?_, hoff, fun hunset => hunset ⟨hlo, hhi⟩, hlo, hhi⟩
  rw [hidle]
  decide

/-! ## REST endpoints -/

/-- An `int` in the range of `uint32_t` converts to itself. -/
theorem intToUint32_of_range (v : Int) (h0 : 0 ≤ v) (h1 : v < 4294967296) :
    (intToUint32 v : Int) = v := by
  unfold intToUint32
  rw [Int.emod_eq_of_lt h0 h1]
  exact Int.toNat_of_nonneg h0

/-- C16: the custom-days handler accepts exactly the values `1..99`. When the
body has a field `days` whose value is in `1..99` the answer is 200,
`customDays` becomes that value and nothing else changes; in every other case
(value outside `1..99`, such as 0 or 100, or field missing) the answer is 400
and the device, `customDays` included, is unchanged. -/
theorem handleCustomDays_accepts_exactly (doc : JsonDocument) (d : Device) :
    ((doc.containsKey "days" = true ∧ 1 ≤ doc.asInt "days" ∧ doc.asInt "days" ≤ 99) →
      (handleCustomDays doc d).2.code = 200 ∧
      ((handleCustomDays doc d).1.sys.customDays : Int) = doc.asInt "days" ∧
      (handleCustomDays doc d).1
        = { d with sys := { d.sys with customDays := (doc.asInt "days").toNat } }) ∧
    (¬ (doc.containsKey "days" = true ∧ 1 ≤ doc.asInt "days" ∧ doc.asInt "days" ≤ 99) →
      (handleCustomDays doc d).2.code = 400 ∧
      (handleCustomDays doc d).1 = d ∧
      (handleCustomDays doc d).1.sys.customDays = d.sys.customDays) := by
  constructor
  · rintro ⟨hkey, hlo, hhi⟩
    have hconv : (intToUint32 (doc.asInt "days") : Int) = doc.asInt "days" :=
      intToUint32_of_range _ (by omega) (by omega)
    have hnat : intToUint32 (doc.asInt "days") = (doc.asInt "days").toNat := by omega
    unfold handleCustomDays
    rw [if_pos hkey]
    dsimp only
    rw [if_pos ⟨hlo, hhi⟩]
    exact ⟨rfl, hconv, by rw [hnat]⟩
  · intro hno
    unfold handleCustomDays
    by_cases hkey : doc.containsKey "days" = true
    · have hrange : ¬ (doc.asInt "days" ≥ 1 ∧ doc.asInt "days" ≤ 99) :=
        fun hr => hno ⟨hkey, hr.1, hr.2⟩
      rw [if_pos hkey]
      dsimp only
      rw [if_neg hrange]
      exact ⟨rfl, rfl, rfl⟩
    · rw [if_neg hkey]
      exact ⟨rfl, rfl, rfl⟩

/-- C17: the start handler answers 200 and performs `startProgram(program)`
if and only if the body has a field `program` whose value is in `1..4`;
otherwise (field missing or value outside `1..4`) it answers 400 and leaves
the device unchanged. -/
theorem handleProgramStart_accepts_exactly (doc : JsonDocument) (env : Env) (d : Device) :
    ((doc.containsKey "program" = true ∧ 1 ≤ doc.asInt "program" ∧
        doc.asInt "program" ≤ 4) →
      (handleProgramStart doc env d).2.code = 200 ∧
      (handleProgramStart doc env d).1 = startProgram (doc.asInt "program") env d) ∧
    (¬ (doc.containsKey "program" = true ∧ 1 ≤ doc.asInt "program" ∧
        doc.asInt "program" ≤ 4) →
      (handleProgramStart doc env d).2.code = 400 ∧
      (handleProgramStart doc env d).1 = d ∧
      (handleProgramStart doc env d).1.sys = d.sys) ∧
    ((handleProgramStart doc env d).2.code = 200 ↔
      (doc.containsKey "program" = true ∧ 1 ≤ doc.asInt "program" ∧
        doc.asInt "program" ≤ 4)) := by
  have hyes : (doc.containsKey "program" = true ∧ 1 ≤ doc.asInt "program" ∧
        doc.asInt "program" ≤ 4) →
      (handleProgramStart doc env d).2.code = 200 ∧
      (handleProgramStart doc env d).1 = startProgram (doc.asInt "program") env d := by
    rintro ⟨hkey, hlo, hhi⟩
    unfold handleProgramStart
    rw [if_pos hkey]
    dsimp only
    rw [if_pos ⟨hlo, hhi⟩]
    exact ⟨rfl, rfl⟩
  have hno : ¬ (doc.containsKey "program" = true ∧ 1 ≤ doc.asInt "program" ∧
        doc.asInt "program" ≤ 4) →
      (handleProgramStart doc env d).2.code = 400 ∧
      (handleProgramStart doc env d).1 = d ∧
      (handleProgramStart doc env d).1.sys = d.sys := by
    intro hno
    unfold handleProgramStart
    by_cases hkey : doc.containsKey "program" = true
    · have hrange : ¬ (doc.asInt "program" ≥ 1 ∧ doc.asInt "program" ≤ 4) :=
        fun hr => hno ⟨hkey, hr.1, hr.2⟩
      rw [if_pos hkey]
      dsimp only
      rw [if_neg hrange]
      exact ⟨rfl, rfl, rfl⟩
    · rw [if_neg hkey]
      exact ⟨rfl, rfl, rfl⟩
  refine ⟨hyes, hno, fun hcode => ?_, fun hcond => (hyes hcond).1⟩
  by_contra hcond
  rw [(hno hcond).1] at hcode
  exact absurd hcode (by decide)

/-! ## REST round trip -/

/-- The status document reports the phase and the active program of the run
record. -/
theorem handleStatus_fields (env : Env) (d : Device) :
    (handleStatus env d).code = 200 ∧
    (handleStatus env d).field "state" = some (JsonValue.int (stateCode d.sys.state)) ∧
    (handleStatus env d).field "program" = some (JsonValue.int d.sys.activeProgram) := by
  refine ⟨rfl, ?_, ?_⟩
  · simp [handleStatus, HttpResponse.field, List.lookup]
  · simp [handleStatus, HttpResponse.field, List.lookup]

/-- A request that carries a parsed document reaches the handler. -/
theorem serveEndpoint_postRequest
    (handler : JsonDocument → Device → Device × HttpResponse)
    (doc : JsonDocument) (d : Device) :
    serveEndpoint handler (postRequest doc) d = handler doc d := rfl

/-- A `GET` request without content reaches the handler with an empty
document. -/
theorem serveEndpoint_getRequest
    (handler : JsonDocument → Device → Device × HttpResponse) (d : Device) :
    serveEndpoint handler getRequest d = handler [] d := rfl

/-- A `POST` request without content is answered 400 and the handler is not
called. -/
theorem serveEndpoint_emptyPostRequest
    (handler : JsonDocument → Device → Device × HttpResponse) (d : Device) :
    serveEndpoint handler emptyPostRequest d
      = (d, sendErrorResponse 400 "No content provided") := rfl

/-- C18, counterexample: after `POST /api/program/start` with body
`program = 2` on the boot device, a `POST /api/program/stop` that carries no
content is answered 400 by `handleJsonRequest`, `stopProgram` is not called,
and the following `GET /api/status` still reports the state `RUNNING`
(code 1), not `IDLE`. -/
theorem stop_without_content_rejected :
    (serveProgramStop emptyPostRequest (envAt 2000)
      (serveProgramStart (postRequest [("program", 2)]) (envAt 1000) bootDevice).1).2.code
      = 400 ∧
    (serveStatus getRequest (envAt 3000)
      (serveProgramStop emptyPostRequest (envAt 2000)
        (serveProgramStart (postRequest [("program", 2)]) (envAt 1000)
          bootDevice).1).1).2.field "state"
      = some (JsonValue.int (stateCode ProgramState.RUNNING)) ∧
    stateCode ProgramState.RUNNING ≠ stateCode ProgramState.IDLE := by
  decide

/-- C18, amended: from every device, `POST /api/program/start` with body
`program = 2` followed by `GET /api/status` yields the answer 200 with
`state = RUNNING` and `program = 2`; a following `POST /api/program/stop`
that carries any JSON document, and equally a direct call of the stop
handler, followed by `GET /api/status` yields `state = IDLE`. -/
theorem rest_round_trip (env1 env2 env3 env4 : Env) (stopDoc : JsonDocument) (d : Device) :
    (serveProgramStart (postRequest [("program", 2)]) env1 d).2.code = 200 ∧
    (serveStatus getRequest env2
      (serveProgramStart (postRequest [("program", 2)]) env1 d).1).2.code = 200 ∧
    (serveStatus getRequest env2
      (serveProgramStart (postRequest [("program", 2)]) env1 d).1).2.field "state"
      = some (JsonValue.int (stateCode ProgramState.RUNNING)) ∧
    (serveStatus getRequest env2
      (serveProgramStart (postRequest [("program", 2)]) env1 d).1).2.field "program"
      = some (JsonValue.int 2) ∧
    (serveProgramStop (postRequest stopDoc) env3
      (serveProgramStart (postRequest [("program", 2)]) env1 d).1).2.code = 200 ∧
    (serveStatus getRequest env4
      (serveProgramStop (postRequest stopDoc) env3
        (serveProgramStart (postRequest [("program", 2)]) env1 d).1).1).2.field "state"
      = some (JsonValue.int (stateCode ProgramState.IDLE)) ∧
    (handleStatus env4
      (handleProgramStop env3
        (handleProgramStart [("program", 2)] env1 d).1).1).field "state"
      = some (JsonValue.int (stateCode ProgramState.IDLE)) := by
  have hstart : (serveProgramStart (postRequest [("program", 2)]) env1 d)
      = (startProgram 2 env1 d,
          { code := 200,
            body := [("success", JsonValue.bool true), ("program", JsonValue.int 2)] }) := rfl
  have hstartH : handleProgramStart [("program", 2)] env1 d
      = serveProgramStart (postRequest [("program", 2)]) env1 d := rfl
  have hsel : selectDuration 2 d.sys = some PROGRAM_2_DURATION := rfl
  have hsys := startProgram_sys 2 env1 d PROGRAM_2_DURATION hsel
  have hstatus : ∀ (env : Env) (dev : Device),
      (serveStatus getRequest env dev).2 = handleStatus env dev := fun _ _ => rfl
  have hstop : ∀ dev : Device,
      (serveProgramStop (postRequest stopDoc) env3 dev)
        = (stopProgram env3 dev,
            { code := 200, body := [("success", JsonValue.bool true)] }) := fun _ => rfl
  have hstopH : ∀ dev : Device, handleProgramStop env3 dev
      = serveProgramStop (postRequest stopDoc) env3 dev := fun _ => rfl
  rw [hstartH, hstopH, hstart, hstop, hstatus, hstatus]
  dsimp only
  obtain ⟨hc1, hs1, hp1⟩ := handleStatus_fields env2 (startProgram 2 env1 d)
  obtain ⟨-, hs2, -⟩ := handleStatus_fields env4 (stopProgram env3 (startProgram 2 env1 d))
  rw [hs1, hp1, hs2, hsys, stopProgram_sys]
  exact ⟨rfl, hc1, rfl, rfl, rfl, rfl, rfl⟩

/-! ## Remote start command -/

/-- A `start_program` command whose index selects no duration leaves the run
record as it is and still appends a `program_started` status. -/
theorem onMqttCommand_start_invalid (payload : JsonDocument) (env : Env) (d : Device)
    (hkey : payload.containsKey "program" = true)
    (hbad : payload.asInt "program" < 1 ∨ 4 < payload.asInt "program") :
    (onMqttCommand "start_program" payload env d).sys = d.sys ∧
    (onMqttCommand "start_program" payload env d).published
      = d.published ++ [⟨"program_started", [], env.publishOk⟩] := by
  have hnone := selectDuration_invalid (payload.asInt "program") d.sys hbad
  unfold onMqttCommand
  rw [if_pos rfl, if_pos hkey]
  dsimp only
  rw [startProgram_none _ env d hnone]
  exact ⟨rfl, rfl⟩

/-- C19, evaluated on the code: the command `start_program` with
`program = 7` received by the boot device starts nothing (the run record is
unchanged, the phase stays `IDLE`), yet `onMqttCommand` publishes the status
`program_started`. -/
theorem onMqttCommand_confirms_invalid_start :
    (onMqttCommand "start_program" [("program", 7)] (envAt 1000) bootDevice).sys
      = bootDevice.sys ∧
    (onMqttCommand "start_program" [("program", 7)] (envAt 1000) bootDevice).sys.state
      = ProgramState.IDLE ∧
    (onMqttCommand "start_program" [("program", 7)] (envAt 1000) bootDevice).published
      = [⟨"program_started", [], true⟩] := by
  obtain ⟨hsys, hpub⟩ := onMqttCommand_start_invalid [("program", 7)] (envAt 1000)
    bootDevice (by decide) (by decide)
  refine ⟨hsys, ?_, hpub⟩
  rw [hsys]
  rfl

/-! ## Catalog lookup -/

/-- C20, counterexample: on a fresh catalog `getProgram(7)` and
`getProgram(-1)` return the entry of the valid index 0, the seven-day
program, and leave the catalog as `getProgram(0)` does. -/
theorem getProgram_out_of_range_is_program_0 :
    (ProgramManager.create.getProgram 7).2 = (ProgramManager.create.getProgram 0).2 ∧
    (ProgramManager.create.getProgram (-1)).2 = (ProgramManager.create.getProgram 0).2 ∧
    (ProgramManager.create.getProgram 7).2.name = "7-Tage-Programm" ∧
    (ProgramManager.create.getProgram 7).2.duration = 604800 := by
  decide

/-- C20, amended: for every index `< 0` or `≥ 4`, `getProgram(index)` falls
back to program 1: it returns the entry `programs[0]`, the same result as
`getProgram(0)`, and leaves the catalog unchanged. -/
theorem getProgram_fallback (m : ProgramManager) (index : Int)
    (h : index < 0 ∨ 4 ≤ index) :
    (m.getProgram index).2 = m.programs 0 ∧
    (m.getProgram index).2 = (m.getProgram 0).2 ∧
    (m.getProgram index).1.customDays = m.customDays ∧
    (m.getProgram index).1.programs = m.programs := by
  have hout : ¬ (index ≥ 0 ∧ index < 4) := by omega
  have hthis : m.getProgram index = (m, m.programs 0) := by
    unfold ProgramManager.getProgram
    rw [dif_neg hout]
  have hzero : (m.getProgram 0).2 = m.programs 0 := by
    unfold ProgramManager.getProgram
    rw [dif_pos (by decide)]
    rfl
  rw [hthis, hzero]
  exact ⟨rfl, rfl, rfl, rfl⟩

/-- Witness for C20, amended: index 7 on a fresh catalog. -/
theorem getProgram_fallback_witness :
    (ProgramManager.create.getProgram 7).2 = ProgramManager.create.programs 0 ∧
    (ProgramManager.create.getProgram 7).2 = (ProgramManager.create.getProgram 0).2 ∧
    (ProgramManager.create.getProgram 7).1.customDays = ProgramManager.create.customDays ∧
    (ProgramManager.create.getProgram 7).1.programs = ProgramManager.create.programs :=
  getProgram_fallback ProgramManager.create 7 (by decide)

/-! ## The catalog under its setter and its lookup -/

/-- The product `customDays * 24 * 60 * 60` in `uint32_t` is
`customDays * 86400` modulo `2^32`. -/
theorem customDaysSeconds_eq (customDays : Nat) :
    customDaysSeconds customDays = customDays * 86400 % UINT32_RANGE := by
  unfold customDaysSeconds mulUint32 UINT32_RANGE
  omega

/-- A lookup leaves `customDays` as it is. -/
theorem getProgram_customDays (m : ProgramManager) (index : Int) :
    (m.getProgram index).1.customDays = m.customDays := by
  unfold ProgramManager.getProgram
  split
  · dsimp only
    split <;> rfl
  · rfl

/-- A lookup leaves the entries 0, 1 and 2 as they are. -/
theorem getProgram_fixed (m : ProgramManager) (index : Int) (i : Fin 4) (hi : i ≠ 3) :
    (m.getProgram index).1.programs i = m.programs i := by
  unfold ProgramManager.getProgram
  split
  · dsimp only
    split
    · exact Function.update_noteq hi _ _
    · rfl
  · rfl

/-- The setter leaves the entries 0, 1 and 2 as they are. -/
theorem setCustomDays_fixed (m : ProgramManager) (days : Nat) (i : Fin 4) (hi : i ≠ 3) :
    (m.setCustomDays days).programs i = m.programs i := by
  unfold ProgramManager.setCustomDays
  exact Function.update_noteq hi _ _

/-- The lookup of the custom slot returns the duration of the current
`customDays`. -/
theorem getProgram_custom_duration (m : ProgramManager) :
    (m.getProgram 3).2.duration = customDaysSeconds m.customDays := by
  unfold ProgramManager.getProgram
  rw [dif_pos (by decide)]
  simp [Function.update]

/-- One call leaves the entries 0, 1 and 2 as they are. -/
theorem call_fixed (m : ProgramManager) (c : ManagerCall) (i : Fin 4) (hi : i ≠ 3) :
    (m.call c).programs i = m.programs i := by
  cases c with
  | setCustomDays days => exact setCustomDays_fixed m days i hi
  | getProgram index => exact getProgram_fixed m index i hi

/-- A sequence of calls leaves the entries 0, 1 and 2 as they are. -/
theorem runCalls_fixed (m : ProgramManager) (calls : List ManagerCall) (i : Fin 4)
    (hi : i ≠ 3) : (m.runCalls calls).programs i = m.programs i := by
  unfold ProgramManager.runCalls
  induction calls generalizing m with
  | nil => rfl
  | cons c rest ih =>
    rw [List.foldl_cons, ih (m.call c), call_fixed m c i hi]

/-- C21, counterexample: on a fresh catalog (seven custom days, custom
duration 604800) `setCustomDays(0)` and `setCustomDays(100)` are not
rejected: afterwards `getCustomDays()` is 0 and 100, and
`getProgram(3).duration` is 0 and 8640000. -/
theorem setCustomDays_accepts_out_of_range :
    ProgramManager.create.getCustomDays = 7 ∧
    (ProgramManager.create.getProgram 3).2.duration = 604800 ∧
    (ProgramManager.create.setCustomDays 0).getCustomDays = 0 ∧
    ((ProgramManager.create.setCustomDays 0).getProgram 3).2.duration = 0 ∧
    (ProgramManager.create.setCustomDays 100).getCustomDays = 100 ∧
    ((ProgramManager.create.setCustomDays 100).getProgram 3).2.duration = 8640000 := by
  decide

/-- C21, amended: the catalog setter is not bounded. For every catalog and
every 32-bit value `days` (0, 1, 99 and 100 included) `setCustomDays(days)` is
accepted: afterwards `getCustomDays()` returns `days` and
`getProgram(3).duration` is `days * 86400` modulo `2^32`. -/
theorem setCustomDays_unbounded (m : ProgramManager) (days : Nat)
    (hdays : days < UINT32_RANGE) :
    (m.setCustomDays days).getCustomDays = days ∧
    ((m.setCustomDays days).getProgram 3).2.duration = days * 86400 % UINT32_RANGE := by
  have hcd : (m.setCustomDays days).customDays = days := toUint32_of_lt hdays
  refine ⟨hcd, ?_⟩
  rw [getProgram_custom_duration, hcd, customDaysSeconds_eq]

/-- Witness for C21, amended: one hundred days on a fresh catalog. -/
theorem setCustomDays_unbounded_witness :
    (ProgramManager.create.setCustomDays 100).getCustomDays = 100 ∧
    ((ProgramManager.create.setCustomDays 100).getProgram 3).2.duration
      = 100 * 86400 % UINT32_RANGE :=
  setCustomDays_unbounded ProgramManager.create 100 (by decide)

/-- C27: no sequence of `setCustomDays` and `getProgram` calls changes the
programs 0, 1 and 2, which on a fresh catalog last 7, 14 and 21 days in
seconds at 100 % power; after `setCustomDays(d)` with a 32-bit `d`,
`getCustomDays()` is `d` and `getProgram(3).duration` is `d * 86400` modulo
`2^32`; and a fresh catalog has `getCustomDays() = 7`. -/
theorem catalog_fixed_programs_immutable (m : ProgramManager)
    (calls : List ManagerCall) (d : Nat) (hd : d < UINT32_RANGE) :
    ((m.runCalls calls).programs 0 = m.programs 0 ∧
      (m.runCalls calls).programs 1 = m.programs 1 ∧
      (m.runCalls calls).programs 2 = m.programs 2) ∧
    (((ProgramManager.create.runCalls calls).programs 0).duration = 7 * 86400 ∧
      ((ProgramManager.create.runCalls calls).programs 1).duration = 14 * 86400 ∧
      ((ProgramManager.create.runCalls calls).programs 2).duration = 21 * 86400 ∧
      ((ProgramManager.create.runCalls calls).programs 0).motorPower = 100 ∧
      ((ProgramManager.create.runCalls calls).programs 1).motorPower = 100 ∧
      ((ProgramManager.create.runCalls calls).programs 2).motorPower = 100) ∧
    ((m.runCalls calls).setCustomDays d).getCustomDays = d ∧
    (((m.runCalls calls).setCustomDays d).getProgram 3).2.duration
      = d * 86400 % UINT32_RANGE ∧
    ProgramManager.create.getCustomDays = 7 := by
  have h0 := runCalls_fixed m calls 0 (by decide)
  have h1 := runCalls_fixed m calls 1 (by decide)
  have h2 := runCalls_fixed m calls 2 (by decide)
  have c0 := runCalls_fixed ProgramManager.create calls 0 (by decide)
  have c1 := runCalls_fixed ProgramManager.create calls 1 (by decide)
  have c2 := runCalls_fixed ProgramManager.create calls 2 (by decide)
  have hcd : ((m.runCalls calls).setCustomDays d).customDays = d := toUint32_of_lt hd
  refine ⟨⟨h0, h1, h2⟩, ?_, hcd, ?_, rfl⟩
  · rw [c0, c1, c2]
    exact ⟨rfl, rfl, rfl, rfl, rfl, rfl⟩
  · rw [getProgram_custom_duration, hcd, customDaysSeconds_eq]

/-- Witness for C27: a fresh catalog after a setter call and lookups in and
out of range, then set to 30 days. -/
theorem catalog_fixed_programs_immutable_witness :
    ((ProgramManager.create.runCalls
        [ManagerCall.setCustomDays 500, ManagerCall.getProgram 3,
          ManagerCall.getProgram 9]).programs 0 = ProgramManager.create.programs 0 ∧
      (ProgramManager.create.runCalls
        [ManagerCall.setCustomDays 500, ManagerCall.getProgram 3,
          ManagerCall.getProgram 9]).programs 1 = ProgramManager.create.programs 1 ∧
      (ProgramManager.create.runCalls
        [ManagerCall.setCustomDays 500, ManagerCall.getProgram 3,
          ManagerCall.getProgram 9]).programs 2 = ProgramManager.create.programs 2) ∧
    (((ProgramManager.create.runCalls
        [ManagerCall.setCustomDays 500, ManagerCall.getProgram 3,
          ManagerCall.getProgram 9]).programs 0).duration = 7 * 86400 ∧
      ((ProgramManager.create.runCalls
        [ManagerCall.setCustomDays 500, ManagerCall.getProgram 3,
          ManagerCall.getProgram 9]).programs 1).duration = 14 * 86400 ∧
      ((ProgramManager.create.runCalls
        [ManagerCall.setCustomDays 500, ManagerCall.getProgram 3,
          ManagerCall.getProgram 9]).programs 2).duration = 21 * 86400 ∧
      ((ProgramManager.create.runCalls
        [ManagerCall.setCustomDays 500, ManagerCall.getProgram 3,
          ManagerCall.getProgram 9]).programs 0).motorPower = 100 ∧
      ((ProgramManager.create.runCalls
        [ManagerCall.setCustomDays 500, ManagerCall.getProgram 3,
          ManagerCall.getProgram 9]).programs 1).motorPower = 100 ∧
      ((ProgramManager.create.runCalls
        [ManagerCall.setCustomDays 500, ManagerCall.getProgram 3,
          ManagerCall.getProgram 9]).programs 2).motorPower = 100) ∧
    ((ProgramManager.create.runCalls
        [ManagerCall.setCustomDays 500, ManagerCall.getProgram 3,
          ManagerCall.getProgram 9]).setCustomDays 30).getCustomDays = 30 ∧
    (((ProgramManager.create.runCalls
        [ManagerCall.setCustomDays 500, ManagerCall.getProgram 3,
          ManagerCall.getProgram 9]).setCustomDays 30).getProgram 3).2.duration
      = 30 * 86400 % UINT32_RANGE ∧
    ProgramManager.create.getCustomDays = 7 :=
  catalog_fixed_programs_immutable ProgramManager.create
    [ManagerCall.setCustomDays 500, ManagerCall.getProgram 3, ManagerCall.getProgram 9]
    30 (by decide)

/-! ## Sinks and the run record -/

/-- The run record after `startProgram`, as a function of the prior run
record, the index and the clock alone. -/
theorem startProgram_sys_eq (p : Int) (env : Env) (d : Device) :
    (startProgram p env d).sys =
      match selectDuration p d.sys with
      | none => d.sys
      | some duration =>
        { d.sys with
          programDuration := duration
          activeProgram := p
          state := ProgramState.RUNNING
          startTime := toUint32 env.epoch
          motorActive := true } := by
  cases hsel : selectDuration p d.sys with
  | none => rw [startProgram_none p env d hsel]
  | some duration => rw [startProgram_sys p env d duration hsel]

/-- The run record after `checkTankLevel`, as a function of the prior run
record and the sensor reading alone. -/
theorem checkTankLevel_sys_eq (env : Env) (d : Device) :
    (checkTankLevel env d).sys =
      if env.sensorHigh = d.sys.tankLevelOk then d.sys
      else if env.sensorHigh = false ∧ d.sys.state = ProgramState.RUNNING then
        { d.sys with
          tankLevelOk := false, state := ProgramState.ERROR, motorActive := false }
      else { d.sys with tankLevelOk := env.sensorHigh } := by
  rcases checkTankLevel_cases env d with h | h | h
  · rw [if_pos h.1, h.2]
  · rw [if_neg h.1, if_neg h.2.1, h.2.2]
  · rw [if_neg h.1, if_pos ⟨h.2.1, h.2.2.1⟩, h.2.2.2.1]

/-- C22: sinks never influence the controller state. For `startProgram`,
`stopProgram` and `checkTankLevel`, two runs from devices with the same
`SystemState`, with the same index, clock reading and sensor reading, that
differ in whether WiFi is connected and whether the MQTT publish succeeds
(and in the state of the outputs) end in the same `SystemState`. -/
theorem sinks_do_not_influence_state (p : Int) (epoch : Nat)
    (sensorHigh wifi1 publish1 wifi2 publish2 : Bool) (d1 d2 : Device)
    (hsys : d1.sys = d2.sys) :
    (startProgram p ⟨epoch, wifi1, sensorHigh, publish1⟩ d1).sys
      = (startProgram p ⟨epoch, wifi2, sensorHigh, publish2⟩ d2).sys ∧
    (stopProgram ⟨epoch, wifi1, sensorHigh, publish1⟩ d1).sys
      = (stopProgram ⟨epoch, wifi2, sensorHigh, publish2⟩ d2).sys ∧
    (checkTankLevel ⟨epoch, wifi1, sensorHigh, publish1⟩ d1).sys
      = (checkTankLevel ⟨epoch, wifi2, sensorHigh, publish2⟩ d2).sys := by
  refine ⟨?_, ?_, ?_⟩
  · rw [startProgram_sys_eq, startProgram_sys_eq, hsys]
  · rw [stopProgram_sys, stopProgram_sys, hsys]
  · rw [checkTankLevel_sys_eq, checkTankLevel_sys_eq, hsys]

/-- Witness for C22: program 2 running, WiFi connected and publish delivered
in one run, WiFi down and publish failing in the other. -/
theorem sinks_do_not_influence_state_witness :
    (startProgram 3 ⟨5000, true, false, true⟩
        (startProgram 2 (envAt 1000) bootDevice)).sys
      = (startProgram 3 ⟨5000, false, false, false⟩
        (startProgram 2 (envAt 1000) bootDevice)).sys ∧
    (stopProgram ⟨5000, true, false, true⟩
        (startProgram 2 (envAt 1000) bootDevice)).sys
      = (stopProgram ⟨5000, false, false, false⟩
        (startProgram 2 (envAt 1000) bootDevice)).sys ∧
    (checkTankLevel ⟨5000, true, false, true⟩
        (startProgram 2 (envAt 1000) bootDevice)).sys
      = (checkTankLevel ⟨5000, false, false, false⟩
        (startProgram 2 (envAt 1000) bootDevice)).sys :=
  sinks_do_not_influence_state 3 5000 false true true false false
    (startProgram 2 (envAt 1000) bootDevice) (startProgram 2 (envAt 1000) bootDevice) rfl

/-- One tick hands no message to the MQTT client. -/
theorem onProgramTimer_published (env : Env) (d : Device) :
    (onProgramTimer env d).published = d.published := by
  unfold onProgramTimer
  split
  · split <;> rfl
  · rfl

/-- C23, evaluated on the code: program 1 is started at clock 1000 on the
boot device (remote control enabled, WiFi connected) and the tick at clock
605800 moves it from `RUNNING` to `COMPLETED`; the log of published status
messages is the same before and after the tick, it holds the
`program_started` message only and no `completed` message. -/
theorem onProgramTimer_publishes_nothing :
    (startProgram 1 (envAt 1000) bootDevice).sys.state = ProgramState.RUNNING ∧
    (startProgram 1 (envAt 1000) bootDevice).sys.remoteControlEnabled = true ∧
    (envAt 605800).wifiConnected = true ∧
    (onProgramTimer (envAt 605800) (startProgram 1 (envAt 1000) bootDevice)).sys.state
      = ProgramState.COMPLETED ∧
    (onProgramTimer (envAt 605800) (startProgram 1 (envAt 1000) bootDevice)).published
      = (startProgram 1 (envAt 1000) bootDevice).published ∧
    (onProgramTimer (envAt 605800) (startProgram 1 (envAt 1000) bootDevice)).published
      = [⟨"program_started", [("program", 1), ("duration", 604800)], true⟩] := by
  refine ⟨by decide, by decide, by decide, by decide,
    onProgramTimer_published _ _, ?_⟩
  rw [onProgramTimer_published]
  decide

/-! ## Custom duration and a cycle in flight -/

/-- The device after a custom-days request whose field `days` is in `1..99`. -/
theorem handleCustomDays_valid (doc : JsonDocument) (d : Device)
    (hkey : doc.containsKey "days" = true)
    (hlo : 1 ≤ doc.asInt "days") (hhi : doc.asInt "days" ≤ 99) :
    (handleCustomDays doc d).1
      = { d with sys := { d.sys with customDays := (doc.asInt "days").toNat } } := by
  have hconv : (intToUint32 (doc.asInt "days") : Int) = doc.asInt "days" :=
    intToUint32_of_range _ (by omega) (by omega)
  have hnat : intToUint32 (doc.asInt "days") = (doc.asInt "days").toNat := by omega
  unfold handleCustomDays
  rw [if_pos hkey]
  dsimp only
  rw [if_pos ⟨hlo, hhi⟩, hnat]

/-- C24: a valid custom-days request (field `days` in `1..99`) changes only
`customDays`: `state`, `activeProgram`, `programDuration`, `startTime` and
`motorActive` are unchanged. The new value takes effect at the next
`startProgram(4)`, which sets `programDuration = customDays * 24 * 60 * 60`. -/
theorem customDays_request_frame (doc : JsonDocument) (env : Env) (d : Device)
    (hkey : doc.containsKey "days" = true)
    (hlo : 1 ≤ doc.asInt "days") (hhi : doc.asInt "days" ≤ 99) :
    (handleCustomDays doc d).1.sys
      = { d.sys with customDays := (doc.asInt "days").toNat } ∧
    ((handleCustomDays doc d).1.sys.customDays : Int) = doc.asInt "days" ∧
    (handleCustomDays doc d).1.sys.state = d.sys.state ∧
    (handleCustomDays doc d).1.sys.activeProgram = d.sys.activeProgram ∧
    (handleCustomDays doc d).1.sys.programDuration = d.sys.programDuration ∧
    (handleCustomDays doc d).1.sys.startTime = d.sys.startTime ∧
    (handleCustomDays doc d).1.sys.motorActive = d.sys.motorActive ∧
    (startProgram 4 env (handleCustomDays doc d).1).sys.programDuration
      = (handleCustomDays doc d).1.sys.customDays * 24 * 60 * 60 := by
  rw [handleCustomDays_valid doc d hkey hlo hhi]
  refine ⟨rfl, Int.toNat_of_nonneg (by omega), rfl, rfl, rfl, rfl, rfl, ?_⟩
  rw [startProgram_sys_eq]
  have hsel : ∀ s : SystemState, selectDuration 4 s
      = some (mulUint32 (mulUint32 (mulUint32 s.customDays 24) 60) 60) := fun _ => rfl
  rw [hsel]
  dsimp only
  have hsmall : (doc.asInt "days").toNat ≤ 99 := by omega
  unfold mulUint32 UINT32_RANGE
  omega

/-- Witness for C24: thirty days set while program 1 is running. -/
theorem customDays_request_frame_witness :
    (handleCustomDays [("days", 30)] (startProgram 1 (envAt 1000) bootDevice)).1.sys
      = { (startProgram 1 (envAt 1000) bootDevice).sys with
          customDays := (JsonDocument.asInt [("days", 30)] "days").toNat } ∧
    ((handleCustomDays [("days", 30)]
        (startProgram 1 (envAt 1000) bootDevice)).1.sys.customDays : Int)
      = JsonDocument.asInt [("days", 30)] "days" ∧
    (handleCustomDays [("days", 30)] (startProgram 1 (envAt 1000) bootDevice)).1.sys.state
      = (startProgram 1 (envAt 1000) bootDevice).sys.state ∧
    (handleCustomDays [("days", 30)]
        (startProgram 1 (envAt 1000) bootDevice)).1.sys.activeProgram
      = (startProgram 1 (envAt 1000) bootDevice).sys.activeProgram ∧
    (handleCustomDays [("days", 30)]
        (startProgram 1 (envAt 1000) bootDevice)).1.sys.programDuration
      = (startProgram 1 (envAt 1000) bootDevice).sys.programDuration ∧
    (handleCustomDays [("days", 30)]
        (startProgram 1 (envAt 1000) bootDevice)).1.sys.startTime
      = (startProgram 1 (envAt 1000) bootDevice).sys.startTime ∧
    (handleCustomDays [("days", 30)]
        (startProgram 1 (envAt 1000) bootDevice)).1.sys.motorActive
      = (startProgram 1 (envAt 1000) bootDevice).sys.motorActive ∧
    (startProgram 4 (envAt 9000)
        (handleCustomDays [("days", 30)]
          (startProgram 1 (envAt 1000) bootDevice)).1).sys.programDuration
      = (handleCustomDays [("days", 30)]
          (startProgram 1 (envAt 1000) bootDevice)).1.sys.customDays * 24 * 60 * 60 :=
  customDays_request_frame [("days", 30)] (envAt 9000)
    (startProgram 1 (envAt 1000) bootDevice) (by decide) (by decide) (by decide)

/-! ## Range of the derived queries -/

/-- C25: for every `SystemState` and every clock reading,
`getRemainingTime() ≤ programDuration` and
`0 ≤ getProgressPercent() ≤ 100`, also when `elapsed * 100` overflows. -/
theorem queries_in_range (now : Nat) (s : SystemState) :
    getRemainingTime now s ≤ s.programDuration ∧
    0 ≤ getProgressPercent now s ∧ getProgressPercent now s ≤ 100 := by
  by_cases hrun : s.state = ProgramState.RUNNING
  · by_cases hge : s.programDuration ≤ elapsedTime now s
    · rw [getProgressPercent_of_ge now s hrun hge]
      refine ⟨?_, by decide, by decide⟩
      unfold getRemainingTime
      rw [if_neg (by simp [hrun]), if_pos hge]
      exact Nat.zero_le _
    · have hlt : elapsedTime now s < s.programDuration := by omega
      have hp := getProgressPercent_lt_100 now s hrun hlt
      refine ⟨?_, hp.1, by omega⟩
      unfold getRemainingTime
      rw [if_neg (by simp [hrun]), if_neg hge]
      by_cases hD : s.programDuration < UINT32_RANGE
      · rw [subUint32_of_le (by omega) hD]
        omega
      · have := subUint32_lt s.programDuration (elapsedTime now s)
        omega
  · obtain ⟨hr, hp⟩ := queries_of_not_running now s hrun
    rw [hr, hp]
    exact ⟨Nat.zero_le _, by decide, by decide⟩

/-! ## Sensor samples -/

/-- A sample whose reading equals the stored level changes nothing. -/
theorem checkTankLevel_same_reading (env : Env) (d : Device)
    (h : env.sensorHigh = d.sys.tankLevelOk) : checkTankLevel env d = d := by
  rcases checkTankLevel_cases env d with hc | hc | hc
  · exact hc.2
  · exact absurd h hc.1
  · exact absurd h hc.1

/-- C26: `checkTankLevel` acts only on a change and faults only a running
cycle. When the reading equals the stored `tankLevelOk`, the device is
unchanged: the `SystemState` is the same and nothing is published. When it
differs, `tankLevelOk` becomes the reading, and unless the phase is `RUNNING`
and the reading is not-OK every other field is unchanged and nothing is
published. A device in `ERROR` stays in `ERROR` whatever the reading, in
particular when the sensor returns to OK. -/
theorem checkTankLevel_frame (env : Env) (d : Device) :
    (env.sensorHigh = d.sys.tankLevelOk →
      checkTankLevel env d = d ∧
      (checkTankLevel env d).sys = d.sys ∧
      (checkTankLevel env d).published = d.published) ∧
    (env.sensorHigh ≠ d.sys.tankLevelOk →
      (checkTankLevel env d).sys.tankLevelOk = env.sensorHigh ∧
      (¬ (d.sys.state = ProgramState.RUNNING ∧ env.sensorHigh = false) →
        (checkTankLevel env d).sys = { d.sys with tankLevelOk := env.sensorHigh } ∧
        (checkTankLevel env d).published = d.published)) ∧
    (d.sys.state = ProgramState.ERROR →
      (checkTankLevel env d).sys.state = ProgramState.ERROR) := by
  refine ⟨fun hsame => ?_, fun hdiff => ?_, fun herr => ?_⟩
  · have hd := checkTankLevel_same_reading env d hsame
    rw [hd]
    exact ⟨rfl, rfl, rfl⟩
  · rcases checkTankLevel_cases env d with hc | hc | hc
    · exact absurd hc.1 hdiff
    · rw [hc.2.2]
      exact ⟨rfl, fun _ => ⟨rfl, rfl⟩⟩
    · obtain ⟨-, hlow, hrun, hsys, -⟩ := hc
      rw [hsys]
      exact ⟨hlow.symm, fun hnot => absurd ⟨hrun, hlow⟩ hnot⟩
  · rcases checkTankLevel_cases env d with hc | hc | hc
    · rw [hc.2]
      exact herr
    · rw [hc.2.2]
      exact herr
    · rw [hc.2.2.2.1]

/-- A sequence of samples that all read not-OK leaves a device whose stored
level is already not-OK as it is. -/
theorem sampleAll_low (envs : List Env) (d : Device)
    (hstored : d.sys.tankLevelOk = false)
    (hall : ∀ env ∈ envs, env.sensorHigh = false) : sampleAll envs d = d := by
  unfold sampleAll
  induction envs with
  | nil => rfl
  | cons env rest ih =>
    have hhead : env.sensorHigh = d.sys.tankLevelOk := by
      rw [hstored]
      exact hall env (List.mem_cons_self env rest)
    rw [List.foldl_cons, checkTankLevel_same_reading env d hhead]
    exact ih (fun e he => hall e (List.mem_cons_of_mem env he))

/-- C30: `startProgram` does not consult the tank sensor. From the boot state,
`checkTankLevel` with a not-OK reading while `IDLE` followed by
`startProgram(1)` leaves the system `RUNNING` with `motorActive = true` while
`tankLevelOk = false`, and every further sequence of `checkTankLevel` samples
with not-OK readings leaves the device as it is, so it stays `RUNNING`. -/
theorem startProgram_ignores_tank_level (deviceId : String) (env0 env1 : Env)
    (envs : List Env)
    (hlow : env0.sensorHigh = false)
    (hall : ∀ env ∈ envs, env.sensorHigh = false) :
    (checkTankLevel env0 (bootDeviceOf deviceId)).sys.state = ProgramState.IDLE ∧
    (startProgram 1 env1 (checkTankLevel env0 (bootDeviceOf deviceId))).sys.state
      = ProgramState.RUNNING ∧
    (startProgram 1 env1 (checkTankLevel env0 (bootDeviceOf deviceId))).sys.motorActive
      = true ∧
    (startProgram 1 env1 (checkTankLevel env0 (bootDeviceOf deviceId))).sys.tankLevelOk
      = false ∧
    (sampleAll envs
      (startProgram 1 env1 (checkTankLevel env0 (bootDeviceOf deviceId)))).sys.state
      = ProgramState.RUNNING ∧
    (sampleAll envs
      (startProgram 1 env1 (checkTankLevel env0 (bootDeviceOf deviceId)))).sys.motorActive
      = true := by
  have hcheck : (checkTankLevel env0 (bootDeviceOf deviceId)).sys
      = { (bootDeviceOf deviceId).sys with tankLevelOk := false } := by
    rw [checkTankLevel_sys_eq, hlow]
    rfl
  have hsel : selectDuration 1 (checkTankLevel env0 (bootDeviceOf deviceId)).sys
      = some PROGRAM_1_DURATION := rfl
  have hstart := startProgram_sys 1 env1 (checkTankLevel env0 (bootDeviceOf deviceId))
    PROGRAM_1_DURATION hsel
  have hstored :
      (startProgram 1 env1 (checkTankLevel env0 (bootDeviceOf deviceId))).sys.tankLevelOk
        = false := by
    rw [hstart, hcheck]
  rw [sampleAll_low envs _ hstored hall]
  rw [hstart, hcheck]
  exact ⟨rfl, rfl, rfl, rfl, rfl, rfl⟩

/-- Witness for C30: the tank is found empty at clock 500, program 1 is
started at clock 1000 and the sensor is sampled twice more. -/
theorem startProgram_ignores_tank_level_witness :
    (checkTankLevel (envLowAt 500) (bootDeviceOf "desinfektion_0")).sys.state
      = ProgramState.IDLE ∧
    (startProgram 1 (envAt 1000)
      (checkTankLevel (envLowAt 500) (bootDeviceOf "desinfektion_0"))).sys.state
      = ProgramState.RUNNING ∧
    (startProgram 1 (envAt 1000)
      (checkTankLevel (envLowAt 500) (bootDeviceOf "desinfektion_0"))).sys.motorActive
      = true ∧
    (startProgram 1 (envAt 1000)
      (checkTankLevel (envLowAt 500) (bootDeviceOf "desinfektion_0"))).sys.tankLevelOk
      = false ∧
    (sampleAll [envLowAt 2000, envLowAt 3000]
      (startProgram 1 (envAt 1000)
        (checkTankLevel (envLowAt 500) (bootDeviceOf "desinfektion_0")))).sys.state
      = ProgramState.RUNNING ∧
    (sampleAll [envLowAt 2000, envLowAt 3000]
      (startProgram 1 (envAt 1000)
        (checkTankLevel (envLowAt 500) (bootDeviceOf "desinfektion_0")))).sys.motorActive
      = true :=
  startProgram_ignores_tank_level "desinfektion_0" (envLowAt 500) (envAt 1000)
    [envLowAt 2000, envLowAt 3000] (by decide) (by decide)

/-! ## Millisecond progress helper of src/programs.h -/

/-- C28, evaluated on the code: for the predefined 7-, 14- and 21-day
programs started at `millis() = 0`, the progress falls from 7, 3 and 2
percent at an elapsed time of 42949672 ms to 0 percent at 42949673 ms, where
the 32-bit product `elapsedTimeMs * 100` wraps; and at the moment of expiry,
elapsed equal to the duration, the result is 0, not 100. -/
theorem ProgramsH_getProgressPercent_wraps :
    PROGRAM_1.durationMs = 604800000 ∧
    ProgramsH.getProgressPercent 42949672 0 PROGRAM_1.durationMs = 7 ∧
    ProgramsH.getProgressPercent 42949673 0 PROGRAM_1.durationMs = 0 ∧
    ProgramsH.getProgressPercent 42949672 0 PROGRAM_2.durationMs = 3 ∧
    ProgramsH.getProgressPercent 42949673 0 PROGRAM_2.durationMs = 0 ∧
    ProgramsH.getProgressPercent 42949672 0 PROGRAM_3.durationMs = 2 ∧
    ProgramsH.getProgressPercent 42949673 0 PROGRAM_3.durationMs = 0 ∧
    ProgramsH.getProgressPercent 604800000 0 PROGRAM_1.durationMs = 0 ∧
    ProgramsH.getProgressPercent 604800001 0 PROGRAM_1.durationMs = 100 := by
  decide

/-! ## Time formatting -/

/-- The split of a number of seconds into days, hours and minutes. -/
theorem time_split_bounds (s : Nat) :
    s % 86400 / 3600 < 24 ∧ s % 3600 / 60 < 60 ∧
    s / 86400 * 86400 + s % 86400 / 3600 * 3600 + s % 3600 / 60 * 60 ≤ s ∧
    s < s / 86400 * 86400 + s % 86400 / 3600 * 3600 + s % 3600 / 60 * 60 + 60 := by
  omega

/-- The string built by `formatTime` is the specified one. -/
theorem formatTime_eq_spec (s : Nat) : formatTime s = specFormatTime s := by
  have hmod : s % 86400 % 3600 = s % 3600 := by omega
  have h1 : 24 * 60 * 60 = 86400 := by norm_num
  have h2 : 60 * 60 = 3600 := by norm_num
  unfold formatTime specFormatTime
  simp only [h1, h2, hmod]

/-- C29: for every seconds value `s`, `ProgramManager::formatRemainingTime(s)`
and `formatTime(s)` of main.cpp return the same string
`<d> Tage <h> Std <m> Min` with `d = s / 86400`, `h = (s mod 86400) / 3600 < 24`
and `m = (s mod 3600) / 60 < 60`, so that
`d * 86400 + h * 3600 + m * 60 ≤ s < d * 86400 + h * 3600 + m * 60 + 60`;
6 days 23 h 45 min gives `6 Tage 23 Std 45 Min`. -/
theorem formatRemainingTime_eq_formatTime (m : ProgramManager) (s : Nat) :
    m.formatRemainingTime s = formatTime s ∧
    formatTime s = specFormatTime s ∧
    s % 86400 / 3600 < 24 ∧ s % 3600 / 60 < 60 ∧
    s / 86400 * 86400 + s % 86400 / 3600 * 3600 + s % 3600 / 60 * 60 ≤ s ∧
    s < s / 86400 * 86400 + s % 86400 / 3600 * 3600 + s % 3600 / 60 * 60 + 60 ∧
    formatTime (6 * 86400 + 23 * 3600 + 45 * 60) = "6 Tage 23 Std 45 Min" ∧
    m.formatRemainingTime (6 * 86400 + 23 * 3600 + 45 * 60) = "6 Tage 23 Std 45 Min" := by
  obtain ⟨hh, hm, hlo, hhi⟩ := time_split_bounds s
  have hsame : ∀ t : Nat, m.formatRemainingTime t = formatTime t := fun _ => rfl
  refine ⟨hsame s, formatTime_eq_spec s, hh, hm, hlo, hhi, by decide, ?_⟩
  rw [hsame]
  decide

/-! ## Progress on the states the controller reaches -/

/-- With 1 to 99 custom days every selected duration lies between one day
and 99 days in seconds. -/
theorem selectDuration_bounds (p : Int) (s : SystemState) (duration : Nat)
    (h : selectDuration p s = some duration)
    (hlo : 1 ≤ s.customDays) (hhi : s.customDays ≤ 99) :
    86400 ≤ duration ∧ duration ≤ 8553600 := by
  unfold selectDuration at h
  split at h
  · rw [← Option.some.inj h]
    decide
  · split at h
    · rw [← Option.some.inj h]
      decide
    · split at h
      · rw [← Option.some.inj h]
        decide
      · split at h
        · rw [← Option.some.inj h]
          have hprod := customDaysSeconds_eq s.customDays
          unfold customDaysSeconds at hprod
          have hfit : s.customDays * 86400 < UINT32_RANGE := by
            unfold UINT32_RANGE
            omega
          rw [hprod, Nat.mod_eq_of_lt hfit]
          omega
        · exact Option.noConfusion h

/-- A custom-days request outside the accepted range leaves the device as
it is. -/
theorem handleCustomDays_invalid (doc : JsonDocument) (d : Device)
    (h : ¬ (doc.containsKey "days" = true ∧ 1 ≤ doc.asInt "days" ∧ doc.asInt "days" ≤ 99)) :
    (handleCustomDays doc d).1 = d := by
  unfold handleCustomDays
  by_cases hkey : doc.containsKey "days" = true
  · have hrange : ¬ (doc.asInt "days" ≥ 1 ∧ doc.asInt "days" ≤ 99) :=
      fun hr => h ⟨hkey, hr.1, hr.2⟩
    rw [if_pos hkey]
    dsimp only
    rw [if_neg hrange]
  · rw [if_neg hkey]

/-- The boot device satisfies the duration invariant. -/
theorem bootDeviceOf_durations (deviceId : String) :
    DurationInvariant (bootDeviceOf deviceId) := by
  have hdays : (bootDeviceOf deviceId).sys.customDays = 7 := rfl
  have hdur : (bootDeviceOf deviceId).sys.programDuration = 1209600 := rfl
  unfold DurationInvariant
  rw [hdays, hdur]
  decide

/-- Every operation preserves the duration invariant. -/
theorem applyOperation_durations (op : Operation) (env : Env) (d : Device)
    (h : DurationInvariant d) : DurationInvariant (applyOperation op env d) := by
  obtain ⟨hlo, hhi, hdlo, hdhi⟩ := h
  cases op with
  | startProgram p =>
    change DurationInvariant (startProgram p env d)
    cases hsel : selectDuration p d.sys with
    | none =>
      rw [startProgram_none p env d hsel]
      exact ⟨hlo, hhi, hdlo, hdhi⟩
    | some duration =>
      have hb := selectDuration_bounds p d.sys duration hsel hlo hhi
      unfold DurationInvariant
      rw [startProgram_sys p env d duration hsel]
      exact ⟨hlo, hhi, hb.1, hb.2⟩
  | stopProgram =>
    change DurationInvariant (stopProgram env d)
    unfold DurationInvariant
    rw [stopProgram_sys]
    exact ⟨hlo, hhi, hdlo, hdhi⟩
  | onProgramTimer =>
    change DurationInvariant (onProgramTimer env d)
    rcases onProgramTimer_cases env d with hc | hc
    · rw [hc]
      exact ⟨hlo, hhi, hdlo, hdhi⟩
    · unfold DurationInvariant
      rw [hc.2.1]
      exact ⟨hlo, hhi, hdlo, hdhi⟩
  | checkTankLevel =>
    change DurationInvariant (checkTankLevel env d)
    rcases checkTankLevel_cases env d with hc | hc | hc
    · rw [hc.2]
      exact ⟨hlo, hhi, hdlo, hdhi⟩
    · rw [hc.2.2]
      exact ⟨hlo, hhi, hdlo, hdhi⟩
    · unfold DurationInvariant
      rw [hc.2.2.2.1]
      exact ⟨hlo, hhi, hdlo, hdhi⟩
  | customDays doc =>
    change DurationInvariant (handleCustomDays doc d).1
    by_cases hvalid : doc.containsKey "days" = true ∧ 1 ≤ doc.asInt "days" ∧
        doc.asInt "days" ≤ 99
    · rw [handleCustomDays_valid doc d hvalid.1 hvalid.2.1 hvalid.2.2]
      have h1 : 1 ≤ (doc.asInt "days").toNat := by omega
      have h2 : (doc.asInt "days").toNat ≤ 99 := by omega
      exact ⟨h1, h2, hdlo, hdhi⟩
    · rw [handleCustomDays_invalid doc d hvalid]
      exact ⟨hlo, hhi, hdlo, hdhi⟩

/-- The duration invariant holds after every sequence of operations. -/
theorem runOperations_durations (trace : List (Operation × Env)) (d : Device)
    (h : DurationInvariant d) : DurationInvariant (runOperations trace d) := by
  unfold runOperations
  induction trace generalizing d with
  | nil => exact h
  | cons step rest ih =>
    rw [List.foldl_cons]
    exact ih _ (applyOperation_durations step.1 step.2 d h)

/-- C9: for every `RUNNING` state the controller reaches from the boot state
by `startProgram`, `stopProgram`, `onProgramTimer`, `checkTankLevel` and
custom-days requests, with its `startTime` and its duration `D` fixed:
`D > 0`, `getProgressPercent` is non-decreasing in the elapsed time
`e = now - startTime`, and it is `100` for every `e ≥ D`. -/
theorem getProgressPercent_monotone_reachable (deviceId : String)
    (trace : List (Operation × Env))
    (hrun : (runOperations trace (bootDeviceOf deviceId)).sys.state
      = ProgramState.RUNNING) :
    0 < (runOperations trace (bootDeviceOf deviceId)).sys.programDuration ∧
    (∀ now1 now2 : Nat,
      elapsedTime now1 (runOperations trace (bootDeviceOf deviceId)).sys
        ≤ elapsedTime now2 (runOperations trace (bootDeviceOf deviceId)).sys →
      getProgressPercent now1 (runOperations trace (bootDeviceOf deviceId)).sys
        ≤ getProgressPercent now2 (runOperations trace (bootDeviceOf deviceId)).sys) ∧
    (∀ now : Nat,
      (runOperations trace (bootDeviceOf deviceId)).sys.programDuration
        ≤ elapsedTime now (runOperations trace (bootDeviceOf deviceId)).sys →
      getProgressPercent now (runOperations trace (bootDeviceOf deviceId)).sys = 100) := by
  obtain ⟨-, -, hdlo, hdhi⟩ := runOperations_durations trace (bootDeviceOf deviceId)
    (bootDeviceOf_durations deviceId)
  have hpos : 0 < (runOperations trace (bootDeviceOf deviceId)).sys.programDuration := by
    omega
  exact ⟨hpos, getProgressPercent_monotone_bounded _ hrun hpos (by omega)⟩

/-- Witness for C9: the custom program set to 99 days at clock 500 and
started at clock 1000. -/
theorem getProgressPercent_monotone_reachable_witness :
    0 < (runOperations
      [(Operation.customDays [("days", 99)], envAt 500),
        (Operation.startProgram 4, envAt 1000)]
      (bootDeviceOf "desinfektion_0")).sys.programDuration ∧
    (∀ now1 now2 : Nat,
      elapsedTime now1 (runOperations
          [(Operation.customDays [("days", 99)], envAt 500),
            (Operation.startProgram 4, envAt 1000)]
          (bootDeviceOf "desinfektion_0")).sys
        ≤ elapsedTime now2 (runOperations
          [(Operation.customDays [("days", 99)], envAt 500),
            (Operation.startProgram 4, envAt 1000)]
          (bootDeviceOf "desinfektion_0")).sys →
      getProgressPercent now1 (runOperations
          [(Operation.customDays [("days", 99)], envAt 500),
            (Operation.startProgram 4, envAt 1000)]
          (bootDeviceOf "desinfektion_0")).sys
        ≤ getProgressPercent now2 (runOperations
          [(Operation.customDays [("days", 99)], envAt 500),
            (Operation.startProgram 4, envAt 1000)]
          (bootDeviceOf "desinfektion_0")).sys) ∧
    (∀ now : Nat,
      (runOperations
          [(Operation.customDays [("days", 99)], envAt 500),
            (Operation.startProgram 4, envAt 1000)]
          (bootDeviceOf "desinfektion_0")).sys.programDuration
        ≤ elapsedTime now (runOperations
          [(Operation.customDays [("days", 99)], envAt 500),
            (Operation.startProgram 4, envAt 1000)]
          (bootDeviceOf "desinfektion_0")).sys →
      getProgressPercent now (runOperations
          [(Operation.customDays [("days", 99)], envAt 500),
            (Operation.startProgram 4, envAt 1000)]
          (bootDeviceOf "desinfektion_0")).sys = 100) :=
  getProgressPercent_monotone_reachable "desinfektion_0"
    [(Operation.customDays [("days", 99)], envAt 500),
      (Operation.startProgram 4, envAt 1000)] (by decide)

end Desinfektion
